import Mathlib

/-!
Verification development for the Ed-room backend.

Shallow embedding of the parts of the repository the claims refer to:
`backend_cache.py` (response cache), `Content_Moderation_Agent.py`
(moderation decision pipeline), `Language_Bridge_Agent.py` (English
fast-path routing, response cleaning and back-translation) and
`api_server.py` (the `/api/chat` endpoint).

Modelling conventions, used throughout:
* Python `float` values that come from JSON or from ratios of small
  integers are modelled as rationals (`ℚ`).  The comparisons the code
  performs against the literals `0.3` and `0.5` agree with the rational
  comparison for every value of the shapes the code produces (short
  decimal fractions and ratios of set cardinalities), because the
  nearest IEEE doubles of distinct such rationals are distinct.
* `time.time()` is modelled as an explicit rational-valued `now`
  parameter threaded through the cache operations (the clock is
  simulated).
* Collaborator calls (Google translate, OpenAI, the grader, the
  explanation agent) are modelled as explicit oracle functions passed
  to the endpoint model; a Python call that may raise is modelled with
  `Except`.
* Python dicts with a fixed key set are modelled as structures; a key
  that may be missing is modelled as an `Option` field.
-/

namespace EdRoom

/-! ### Python string primitives -/

/-- The character set matched by Python's `str.isspace` / the Unicode
`\s` class of the `re` module (used by `.strip()` and `.split()`). -/
def pyIsSpace (c : Char) : Bool :=
  c = ' ' ∨ c = '\t' ∨ c = '\n' ∨ c = '\r' ∨ c = '\x0b' ∨ c = '\x0c' ∨
  c = '\x1c' ∨ c = '\x1d' ∨ c = '\x1e' ∨ c = '\x1f' ∨ c = '\x85' ∨
  c = '\xa0' ∨ c = (Char.ofNat 0x1680) ∨
  (0x2000 ≤ c.toNat ∧ c.toNat ≤ 0x200a) ∨
  c = (Char.ofNat 0x2028) ∨ c = (Char.ofNat 0x2029) ∨
  c = (Char.ofNat 0x202f) ∨ c = (Char.ofNat 0x205f) ∨
  c = (Char.ofNat 0x3000)

/-- Python `str.strip()` on a character list: drop whitespace from both
ends. -/
def pyStripList (l : List Char) : List Char :=
  ((l.dropWhile pyIsSpace).reverse.dropWhile pyIsSpace).reverse

/-- Python `str.strip()`. -/
def pyStrip (s : String) : String := ⟨pyStripList s.data⟩

/-- Python `str.lower()`.  (Modelled with `Char.toLower`; the repository
only compares ASCII language codes and cache keys.) -/
def pyLower (s : String) : String := ⟨s.data.map Char.toLower⟩

/-- Python slicing `s[:n]` (first `n` characters). -/
def pyTake (n : Nat) (s : String) : String := ⟨s.data.take n⟩

/-- Python `str.split()` with no separator: maximal runs of
non-whitespace, empty chunks dropped. -/
def pySplitWs (s : String) : List String :=
  ((s.data.splitOnP pyIsSpace).map (fun l => (⟨l⟩ : String))).filter (fun w => w != "")

/-! ### `backend_cache.py` — data model -/

/-- `translation_info` dict attached to a chat response
(`api_server.py`, chat endpoint, step 1). -/
structure TranslationInfo where
  original_language : String
  translated_text : String
  confidence : ℚ
deriving DecidableEq, Repr

/-- `explanation_result` dict attached to a chat response. -/
structure ExplanationInfo where
  topic : String
  explanation_text : String
  intent_confidence : ℚ
  reasoning : String
deriving DecidableEq, Repr

/-- The minimal payload `BackendCache.put` stores (its `cached_response`
dict), which is also what `get`, `_find_similar_cached_response` and
`get_fallback_response` return.  The optional `is_fallback` key of the
fallback dicts is modelled as a `Bool` field that is `false` exactly when
the key is absent from the Python dict. -/
structure Payload where
  bot_response : String
  translation_info : Option TranslationInfo
  explanation_result : Option ExplanationInfo
  final_approved : Bool
  success : Bool
  is_fallback : Bool
deriving DecidableEq, Repr

/-- The `response_data` dict handed to `BackendCache.put`.  Every field
the cache reads with `.get(…)` is optional; `none` models a missing key
(or a `None` value, which `.get` does not distinguish from a missing
key for the defaults used here). -/
structure ResponseData where
  bot_response : Option String
  translation_info : Option TranslationInfo
  explanation_result : Option ExplanationInfo
  final_approved : Option Bool
  success : Option Bool
deriving DecidableEq, Repr

/-- The normalisation `put` applies to `response_data` before storing
(`backend_cache.py` lines 84-90): keep only the essential keys, with
defaults `''`, `None`, `None`, `True`, `True`. -/
def normalizePayload (rd : ResponseData) : Payload where
  bot_response := rd.bot_response.getD ""
  translation_info := rd.translation_info
  explanation_result := rd.explanation_result
  final_approved := rd.final_approved.getD true
  success := rd.success.getD true
  is_fallback := false

/-- One cache slot: `{value, timestamp, ttl, original_message}`
(`backend_cache.py` lines 92-97).  `original_message` is the message
truncated to 100 characters. -/
structure Entry where
  value : Payload
  timestamp : ℚ
  ttl : Int
  original_message : String
deriving DecidableEq, Repr

/-- Constructor arguments of `BackendCache` (defaults `200` and `3600`). -/
structure CacheConfig where
  max_entries : Nat
  default_ttl : Int
deriving DecidableEq, Repr

def defaultCacheConfig : CacheConfig := ⟨200, 3600⟩

/-- The `self.cache` dict, as an insertion-ordered association list
(Python 3 dicts preserve insertion order; assignment to an existing key
keeps its position).  Keys are unique by construction. -/
abbrev CacheState := List (String × Entry)

/-- `BackendCache._normalize_key`: lowercase, strip, newlines to
spaces, carriage returns removed. -/
def normalizeKey (text : String) : String :=
  if text = "" then ""
  else ⟨((pyStrip (pyLower text)).data.map
          (fun c => if c = '\n' then ' ' else c)).filter (fun c => c != '\r')⟩

/-- `BackendCache._generate_key`: the key is derived injectively from
`f"{normalized}|pdf:{has_pdf}"`.  The source hashes this `key_data`
string with md5 and keeps 16 hex digits; the hashing step is modelled as
the identity on `key_data` (i.e. md5 prefixes of distinct inputs are
assumed distinct, which is what the code relies on). -/
def generateKey (user_message : String) (hasPdf : Bool) : String :=
  normalizeKey user_message ++ "|pdf:" ++ (if hasPdf then "True" else "False")

/-- Dict assignment `self.cache[key] = entry`: replace in place if the
key exists, else append. -/
def setKey : CacheState → String → Entry → CacheState
  | [], k, e => [(k, e)]
  | (k', e') :: rest, k, e =>
      if k' = k then (k, e) :: rest else (k', e') :: setKey rest k e

/-- First entry stored under `k`, if any (dict lookup). -/
def lookupKey (cache : CacheState) (k : String) : Option Entry :=
  match cache.find? (fun kv => kv.1 == k) with
  | none => none
  | some kv => some kv.2

/-- `del self.cache[key]`. -/
def removeKey (cache : CacheState) (k : String) : CacheState :=
  cache.filter (fun kv => kv.1 != k)

/-- `BackendCache._cleanup_expired`: drop every entry with
`now - timestamp > ttl`. -/
def cleanupExpired (now : ℚ) (cache : CacheState) : CacheState :=
  cache.filter (fun kv => decide (now - kv.2.timestamp ≤ (kv.2.ttl : ℚ)))

/-- `BackendCache._enforce_size_limit`: when over the maximum, sort the
items by timestamp (Python's `sorted` is stable, like `mergeSort`) and
delete the first `len - max` keys. -/
def enforceSizeLimit (cfg : CacheConfig) (cache : CacheState) : CacheState :=
  if cache.length ≤ cfg.max_entries then cache
  else
    let sortedItems := cache.mergeSort
      (fun a b => decide (a.2.timestamp ≤ b.2.timestamp))
    let toRemove := (sortedItems.take (cache.length - cfg.max_entries)).map Prod.fst
    cache.filter (fun kv => !(toRemove.contains kv.1))

/-- `BackendCache.put` (`backend_cache.py` lines 69-106).  The Python
expression `ttl or self.default_ttl` treats a `0` override as falsy and
silently falls back to the default TTL.  The body cannot raise in the
model, so the `try/except` wrapper is the identity here. -/
def cacheTtlOf (cfg : CacheConfig) (ttl : Option Int) : Int :=
  match ttl with
  | none => cfg.default_ttl
  | some t => if t = 0 then cfg.default_ttl else t

def put (cfg : CacheConfig) (cache : CacheState) (user_message : String)
    (response_data : ResponseData) (hasPdf : Bool) (ttl : Option Int) (now : ℚ) :
    CacheState :=
  let key := generateKey user_message hasPdf
  let cacheTtl : Int := cacheTtlOf cfg ttl
  let entry : Entry :=
    { value := normalizePayload response_data
      timestamp := now
      ttl := cacheTtl
      original_message := pyTake 100 user_message }
  enforceSizeLimit cfg (cleanupExpired now (setKey cache key entry))

/-- `BackendCache.get` (`backend_cache.py` lines 108-139): returns the
stored payload, or `none` when the key is missing or its TTL has
elapsed; an elapsed entry is deleted.  The mutated dict is the second
component. -/
def get (cache : CacheState) (user_message : String) (hasPdf : Bool) (now : ℚ) :
    Option Payload × CacheState :=
  let key := generateKey user_message hasPdf
  match lookupKey cache key with
  | none => (none, cache)
  | some e =>
      if now - e.timestamp > (e.ttl : ℚ) then (none, removeKey cache key)
      else (some e.value, cache)

/-- The cache slot one `put cfg · it.1 it.2.1 false none it.2.2` call
stores for an item `(message, response-data, insertion time)`. -/
def itemKV (cfg : CacheConfig) (it : String × ResponseData × ℚ) : String × Entry :=
  (generateKey it.1 false,
   { value := normalizePayload it.2.1, timestamp := it.2.2
     ttl := cfg.default_ttl, original_message := pyTake 100 it.1 })

/-- Successive `put` calls without PDF or TTL override, each at its
item's insertion time (the bulk-insert scenario of the eviction
claim). -/
def putSeq (cfg : CacheConfig) (items : List (String × ResponseData × ℚ))
    (cache : CacheState) : CacheState :=
  items.foldl (fun c it => put cfg c it.1 it.2.1 false none it.2.2) cache

/-- A minimal successful `response_data` dict with the given text, for
concrete cache scenarios. -/
def rdOf (txt : String) : ResponseData :=
  { bot_response := some txt, translation_info := none
    explanation_result := none, final_approved := some true
    success := some true }

/-! ### `backend_cache.py` — similarity fallback -/

/-- Token set of a string after `_normalize_key` normalisation. -/
def wordSet (s : String) : Finset String := (pySplitWs s).toFinset

/-- The token set `_find_similar_cached_response` computes for a stored
entry (`self._normalize_key(entry['original_message'])` split into
words). -/
def cachedWords (e : Entry) : Finset String :=
  wordSet (normalizeKey e.original_message)

/-- Jaccard similarity as computed at `backend_cache.py` lines 237-239:
`len(intersection) / len(union) if union else 0`. -/
def jaccard (a b : Finset String) : ℚ :=
  if a ∪ b = ∅ then 0 else ((a ∩ b).card : ℚ) / ((a ∪ b).card : ℚ)

/-- The scan of `_find_similar_cached_response` over `self.cache.values()`
with its running `best_match` / `best_score` accumulator: an entry is
skipped when its token set is empty, and recorded when its similarity
both strictly improves the best score and reaches the threshold.
(`original_message` is always present in the model, as `put` always
stores it, so the `'original_message' not in entry` guard is dead.) -/
def bestMatchAux (iw : Finset String) (thr : ℚ) :
    List (String × Entry) → Option Payload → ℚ → Option Payload × ℚ
  | [], best, score => (best, score)
  | (_, e) :: rest, best, score =>
      if cachedWords e = ∅ then bestMatchAux iw thr rest best score
      else if jaccard iw (cachedWords e) > score ∧ jaccard iw (cachedWords e) ≥ thr then
        bestMatchAux iw thr rest (some e.value) (jaccard iw (cachedWords e))
      else bestMatchAux iw thr rest best score

/-- `BackendCache._find_similar_cached_response` (threshold defaults to
`0.3` in the source and is never overridden by callers). -/
def findSimilarCachedResponse (cache : CacheState) (user_message : String)
    (thr : ℚ) : Option Payload :=
  (bestMatchAux (wordSet (normalizeKey user_message)) thr cache none 0).1

/-- The canned sections of `get_fallback_response` joined by newlines
(`backend_cache.py` lines 161-191).  `nowIso` stands for
`datetime.now().isoformat()`. -/
def fallbackSections (user_message : String) (error_context : String)
    (nowIso : String) (cacheEntries : Nat) : String :=
  String.intercalate "\n"
    [ "**Summary:**"
    , "The AI service is temporarily unavailable, but I can still help you with a structured response."
    , ""
    , "**Your Request:**"
    , user_message
    , ""
    , "**Key Points:**"
    , "- Your message has been received and processed locally"
    , "- This is a temporary fallback response"
    , "- Full AI capabilities will return when the service reconnects"
    , ""
    , "**Status Information:**"
    , "```json"
    , "\x7b\n  \"status\": \"fallback_mode\",\n  \"reason\": \"" ++ error_context ++
        "\",\n  \"timestamp\": \"" ++ nowIso ++ "\",\n  \"message_length\": " ++
        toString user_message.data.length ++ ",\n  \"cache_entries\": " ++
        toString cacheEntries ++ "\n\x7d"
    , "```"
    , ""
    , "**Next Steps:**"
    , "- Try your request again in a few moments"
    , "- The system will automatically reconnect when available"
    , "- Your conversation history is preserved" ]

/-- `BackendCache.get_fallback_response` (`backend_cache.py` lines
141-197): if a similar cached payload exists it is returned with an
annotated `bot_response` (and without any `is_fallback` key); otherwise
the canned structured payload is returned with `is_fallback` set. -/
def getFallbackResponse (cache : CacheState) (user_message : String)
    (error_context : String) (nowIso : String) : Payload :=
  match findSimilarCachedResponse cache user_message (3/10) with
  | some similar =>
      { similar with
          bot_response :=
            "**[Cached Response]** Service temporarily unavailable. Here's a previous similar response:\n\n"
            ++ similar.bot_response }
  | none =>
      { bot_response := fallbackSections user_message error_context nowIso cache.length
        translation_info := none
        explanation_result := none
        final_approved := true
        success := true
        is_fallback := true }

/-- The `except` arm of `get_fallback_response` (`backend_cache.py`
lines 199-206), reached only if the body raises: a minimal dict whose
`translation_info` / `explanation_result` keys are absent (modelled as
`none`). -/
def getFallbackResponseOnError (user_message : String) : Payload where
  bot_response :=
    "**[System Message]** Service temporarily unavailable. Your message: '"
    ++ pyTake 100 user_message ++ "...' has been received."
  translation_info := none
  explanation_result := none
  final_approved := true
  success := true
  is_fallback := true

/-! ### `Content_Moderation_Agent.py` — classification and decision -/

/-- The parsed JSON object produced by the moderation LLM (the
`moderation_result` dict); every key may be missing. -/
structure ModerationJson where
  inappropriate_categories : Option (List String)
  severity_score : Option ℚ
  confidence : Option ℚ
  explanation_text : Option String
deriving DecidableEq, Repr

/-- The slice of `ModerationState` the classification and decision nodes
read and write.  `severity_score` models `metadata["severity_score"]`,
which `_classify_content_node` stores and `_make_decision_node` reads
back. -/
structure ModState where
  error : Option String
  flagged_categories : List String
  severity_score : ℚ
  confidence : ℚ
  explanation_text : String
  approved : Bool
  step : String
deriving DecidableEq, Repr

/-- `_classify_content_node` (`Content_Moderation_Agent.py` lines
219-248): extract the flagged categories, severity, confidence and
explanation from the LLM result, with defaults `[]`, `0.0`, `0.0`,
`"No explanation provided"`; skipped when an error is already set. -/
def classifyContentNode (mr : ModerationJson) (st : ModState) : ModState :=
  if st.error.isSome then st
  else
    { st with
        flagged_categories := mr.inappropriate_categories.getD []
        severity_score := mr.severity_score.getD 0
        confidence := mr.confidence.getD 0
        explanation_text := mr.explanation_text.getD "No explanation provided"
        step := "content_classified" }

/-- `_make_decision_node` (`Content_Moderation_Agent.py` lines 265-295):
`approved = len(flagged_categories) == 0 and severity_score < 0.3`;
skipped when an error is already set. -/
def makeDecisionNode (st : ModState) : ModState :=
  if st.error.isSome then st
  else
    { st with
        approved := st.flagged_categories.isEmpty && decide (st.severity_score < 3/10)
        step := "decision_made" }

/-! ### `Language_Bridge_Agent.py` — English check and routing -/

/-- The slice of `AgentState` used from the English check onwards. -/
structure AgentState where
  input_text : String
  detected_language : String
  detected_language_code : String
  confidence : ℚ
  translated_text : String
  is_english : Bool
  error : Option String
  step : String
deriving DecidableEq, Repr

/-- `_check_english_node` (`Language_Bridge_Agent.py` lines 193-215):
`is_english = detected_code.lower() == "en"`; when English, the
translated text is set to the input text; skipped on a prior error. -/
def checkEnglishNode (st : AgentState) : AgentState :=
  if st.error.isSome then st
  else
    let isEn := pyLower st.detected_language_code = "en"
    let st1 := { st with is_english := isEn, step := "english_check_complete" }
    if isEn then { st1 with translated_text := st1.input_text } else st1

/-- `_routing_decision` (`Language_Bridge_Agent.py` lines 217-224). -/
def routingDecision (st : AgentState) : String :=
  if st.error.isSome then "error"
  else if st.is_english then "already_english"
  else "needs_translation"

/-- `_finalize_output_node`: only bookkeeping on the modelled fields. -/
def finalizeOutputNode (st : AgentState) : AgentState :=
  { st with step := "processing_complete" }

/-- The workflow segment after language detection, as wired in
`_build_workflow_graph`: `check_english`, then the conditional edge
(`needs_translation → translate_text → finalize`; `already_english` and
`error` go straight to `finalize`).  `translateCall` is the
`_translate_text_node` collaborator; the returned flag records whether
it was invoked. -/
def runFromCheckEnglish (translateCall : AgentState → AgentState)
    (st : AgentState) : AgentState × Bool :=
  let st1 := checkEnglishNode st
  if routingDecision st1 = "needs_translation" then
    (finalizeOutputNode (translateCall st1), true)
  else
    (finalizeOutputNode st1, false)

/-! ### `Language_Bridge_Agent.py` — response cleaning for back-translation -/

/-- Helper for `removeBold`: scan for the closing `**` of a bold span.
In the pattern `\*\*(.*?)\*\*` the dot does not match a newline and
`(.*?)` is non-greedy, so the close is the first adjacent `**` strictly
before the next newline.  Returns the span contents and the remainder
after the closing pair. -/
def findClose : List Char → Option (List Char × List Char)
  | [] => none
  | [_] => none
  | c :: d :: rest =>
      if c = '\n' then none
      else if c = '*' ∧ d = '*' then some ([], rest)
      else (findClose (d :: rest)).map (fun p => (c :: p.1, p.2))

/-- `re.sub(r'\*\*(.*?)\*\*', r'\1', text)`: repeatedly replace the
leftmost bold span by its contents, scanning left to right and resuming
after each replacement (the replacement text is not rescanned, matching
`re.sub`). -/
def removeBold : List Char → List Char
  | [] => []
  | '*' :: '*' :: rest =>
      match h : findClose rest with
      | some (inside, after) => inside ++ removeBold after
      | none => '*' :: '*' :: removeBold rest
  | c :: rest => c :: removeBold rest
termination_by l => l.length
decreasing_by
  · have key : ∀ (l i a : List Char), findClose l = some (i, a) → a.length < l.length := by
      intro l
      induction l with
      | nil => intro i a h; simp [findClose] at h
      | cons c rest ih =>
        intro i a h
        cases rest with
        | nil => simp [findClose] at h
        | cons d rest' =>
          rw [findClose] at h
          by_cases hnl : c = '\n'
          · simp [hnl] at h
          · by_cases hcd : c = '*' ∧ d = '*'
            · rw [if_neg hnl, if_pos hcd] at h
              simp only [Option.some.injEq, Prod.mk.injEq] at h
              obtain ⟨_, ha⟩ := h
              subst ha
              simp only [List.length_cons]
              omega
            · rw [if_neg hnl, if_neg hcd, Option.map_eq_some'] at h
              obtain ⟨p, hfc, hpa⟩ := h
              have ha : a = p.2 := (congrArg Prod.snd hpa).symm
              subst ha
              have hfc' : findClose (d :: rest') = some (p.1, p.2) := by
                rw [hfc]
              have h2 := ih p.1 p.2 hfc'
              simp only [List.length_cons] at h2 ⊢
              omega
    have := key rest inside after h
    simp only [List.length_cons]
    omega
  · simp only [List.length_cons]; omega
  · simp only [List.length_cons]; omega

/-- One left-to-right pass of `re.sub(r'\n\s*\n', '\n\n', text)`: at a
`\n` whose following maximal whitespace run contains another `\n`, the
greedy `\s*` extends the match to the last `\n` of that run, the match
is replaced by exactly two newlines, and scanning resumes after it. -/
def collapseNewlineRuns : List Char → List Char
  | [] => []
  | c :: rest =>
      if c = '\n' then
        let w := rest.takeWhile pyIsSpace
        if h : '\n' ∈ w then
          let w2 := (w.reverse.takeWhile (fun d => d ≠ '\n')).reverse
          '\n' :: '\n' :: collapseNewlineRuns (w2 ++ rest.dropWhile pyIsSpace)
        else c :: collapseNewlineRuns rest
      else c :: collapseNewlineRuns rest
termination_by l => l.length
decreasing_by
  · have key : ∀ (p : Char → Bool) (l : List Char) (x : Char),
        x ∈ l → p x = false → (l.takeWhile p).length < l.length := by
      intro p l
      induction l with
      | nil => intro x hx _; cases hx
      | cons c rest ih =>
        intro x hx hpx
        by_cases hc : p c
        · rw [List.takeWhile_cons_of_pos hc]
          have hxr : x ∈ rest := by
            cases hx with
            | head => rw [hpx] at hc; cases hc
            | tail _ h => exact h
          simpa using ih x hxr hpx
        · rw [List.takeWhile_cons_of_neg (by simpa using hc)]
          simp
    have h1 : ((rest.takeWhile pyIsSpace).reverse.takeWhile
        (fun d => d ≠ '\n')).length < (rest.takeWhile pyIsSpace).length := by
      have hm : '\n' ∈ (rest.takeWhile pyIsSpace).reverse := List.mem_reverse.mpr h
      have := key (fun d => decide (d ≠ '\n')) (rest.takeWhile pyIsSpace).reverse '\n' hm (by simp)
      simpa using this
    have h2 : rest.takeWhile pyIsSpace ++ rest.dropWhile pyIsSpace = rest :=
      List.takeWhile_append_dropWhile pyIsSpace rest
    have h3 : (rest.takeWhile pyIsSpace).length + (rest.dropWhile pyIsSpace).length
        = rest.length := by
      rw [← List.length_append, h2]
    simp only [List.length_append, List.length_reverse, List.length_cons]
    omega
  · simp only [List.length_cons]; omega
  · simp only [List.length_cons]; omega

/-- `re.sub(r' +', ' ', text)`: collapse each maximal run of ASCII
spaces to a single space. -/
def collapseSpaces : List Char → List Char
  | [] => []
  | c :: rest =>
      if c = ' ' then ' ' :: collapseSpaces (rest.dropWhile (fun d => d = ' '))
      else c :: collapseSpaces rest
termination_by l => l.length
decreasing_by
  · have hd : (List.dropWhile (fun d => decide (d = ' ')) rest).length ≤ rest.length :=
      (List.dropWhile_sublist _).length_le
    simp only [List.length_cons]
    omega
  · simp only [List.length_cons]; omega

/-- The codepoint ranges of the `emoji_pattern` character class in
`clean_formatting_for_translation` (`Language_Bridge_Agent.py` lines
479-490). -/
def inEmojiRanges (c : Char) : Bool :=
  (0x1F600 ≤ c.toNat ∧ c.toNat ≤ 0x1F64F) ∨
  (0x1F300 ≤ c.toNat ∧ c.toNat ≤ 0x1F5FF) ∨
  (0x1F680 ≤ c.toNat ∧ c.toNat ≤ 0x1F6FF) ∨
  (0x1F1E0 ≤ c.toNat ∧ c.toNat ≤ 0x1F1FF) ∨
  (0x2702 ≤ c.toNat ∧ c.toNat ≤ 0x27B0) ∨
  (0x24C2 ≤ c.toNat ∧ c.toNat ≤ 0x1F251)

/-- The character class of `re.sub(r'[✅❌⚠️🎯🎓📝📄🏆🏅💬🔍🌐🛡️📚📊🎨🚀]', '', text)`
by codepoint (the two emoji written with a variation selector contribute
`U+FE0F` as a separate class member). -/
def decorativeSymbols : List Char :=
  [Char.ofNat 0x2705, Char.ofNat 0x274C, Char.ofNat 0x26A0, Char.ofNat 0xFE0F,
   Char.ofNat 0x1F3AF, Char.ofNat 0x1F393, Char.ofNat 0x1F4DD, Char.ofNat 0x1F4C4,
   Char.ofNat 0x1F3C6, Char.ofNat 0x1F3C5, Char.ofNat 0x1F4AC, Char.ofNat 0x1F50D,
   Char.ofNat 0x1F310, Char.ofNat 0x1F6E1, Char.ofNat 0x1F4DA, Char.ofNat 0x1F4CA,
   Char.ofNat 0x1F3A8, Char.ofNat 0x1F680]

/-- `clean_formatting_for_translation` (`Language_Bridge_Agent.py`
lines 463-499): strip bold markers, emoji ranges and decorative
symbols, normalise blank lines and space runs, then strip. -/
def cleanFormattingForTranslation (text : String) : String :=
  let t1 := removeBold text.data
  let t2 := t1.filter (fun c => !(inEmojiRanges c))
  let t3 := t2.filter (fun c => !(decorativeSymbols.contains c))
  let t4 := collapseNewlineRuns t3
  let t5 := collapseSpaces t4
  ⟨pyStripList t5⟩

/-- Result dict of `translate_response_to_user_language` and of
`agent.translate_to_language`.  The `skipped` key is only ever set in
the English branch; reading it elsewhere yields a falsy value, modelled
by `false`. -/
structure TransResult where
  success : Bool
  translated_text : String
  skipped : Bool
  error : Option String
deriving DecidableEq, Repr

/-- `translate_response_to_user_language` (`Language_Bridge_Agent.py`
lines 502-572).  `translateTo text code` stands for the collaborator
call `agent.translate_to_language(text, code, 'en')`. -/
def translateResponseToUserLanguage (translateTo : String → String → TransResult)
    (response_text target_language_code : String) : TransResult :=
  if pyLower target_language_code = "en" ∨ pyLower target_language_code = "english" then
    { success := true, translated_text := response_text, skipped := true, error := none }
  else if target_language_code = "" ∨ (pyStrip target_language_code).length = 0 then
    { success := false, translated_text := response_text, skipped := false
      error := some "Invalid target language code" }
  else
    let clean_text := cleanFormattingForTranslation response_text
    let text_to_translate :=
      if (pyStrip clean_text).length < 10 then response_text else clean_text
    translateTo text_to_translate target_language_code

/-! ### `api_server.py` — the `/api/chat` endpoint -/

/-- `ChatMessage` request body (`message` is required and may be empty;
`pdf_file` is an optional base64 blob).  `user_id` / `session_id` only
feed logging and are omitted. -/
structure ChatRequest where
  message : String
  pdf_file : Option String
deriving DecidableEq, Repr

/-- The dict returned by `process_with_moderation` as read by the chat
endpoint. -/
structure PwmResult where
  success : Bool
  input_text : String
  original_language : String
  original_language_code : String
  translation_confidence : ℚ
  translated_text : String
  is_english : Bool
  moderation_approved : Bool
  moderation_confidence : ℚ
  flagged_categories : List String
  moderation_explanation : String
  final_approved : Bool
  error : Option String
deriving DecidableEq, Repr

/-- Result of `classify_user_intent` (total: the function catches its
own failures and returns a fallback dict). -/
structure IntentResult where
  intent : String
  confidence : ℚ
  reasoning : String
deriving DecidableEq, Repr

/-- The grading fields the endpoint reads from
`grade_assignment_from_blob`, which is also the `grading_result` dict
it builds from them. -/
structure GradeResult where
  marks_obtained : ℚ
  total_marks : ℚ
  ai_feedback : String
deriving DecidableEq, Repr

/-- `moderation_info` dict attached to a chat response. -/
structure ModerationInfo where
  approved : Bool
  confidence : ℚ
  flagged_categories : List String
  explanation_text : String
deriving DecidableEq, Repr

/-- `ChatResponse` body (the `timestamp` field, which is wall-clock
text, is omitted). -/
structure ChatResponseM where
  success : Bool
  user_message : String
  bot_response : String
  translation_info : Option TranslationInfo
  moderation_info : Option ModerationInfo
  grading_result : Option GradeResult
  explanation_result : Option ExplanationInfo
  final_approved : Bool
  error : Option String
deriving DecidableEq, Repr

/-- The collaborators the endpoint calls, as oracles:
`process_with_moderation`, `classify_user_intent`, the explanation
agent (with its availability flag `explanation_agent and
service_status["explanation"] == "healthy"`), `validate_pdf_blob`,
`grade_assignment_from_blob` and `agent.translate_to_language`.  A call
the code wraps in `try/except` is modelled with `Except`. -/
structure Collaborators where
  pwm : String → PwmResult
  intentOf : String → IntentResult
  explanationAvailable : Bool
  explain : String → Except String String
  validatePdf : String → Bool
  gradePdf : String → String → Except String GradeResult
  translateTo : String → String → TransResult

/-- Which collaborator calls the endpoint made while handling one
request. -/
structure CallFlags where
  calledPwm : Bool
  calledIntent : Bool
  calledExplain : Bool
  calledGrade : Bool
  calledTranslateBack : Bool
deriving DecidableEq, Repr

def noFlags : CallFlags := ⟨false, false, false, false, false⟩

/-- The contextual rubric built from the user's request (interior
indentation of the Python triple-quoted string is elided). -/
def customRubric (user_context : String) : String :=
  "Based on the user's request: \"" ++ user_context ++ "\"\n\n" ++
  "Grading Criteria:\n" ++
  "- Content Quality and Relevance (40 marks)\n" ++
  "- Clarity and Understanding (25 marks)\n" ++
  "- Organization and Structure (20 marks)\n" ++
  "- Grammar and Presentation (15 marks)\n\n" ++
  "Instructions:\n" ++
  "- Provide specific feedback related to the user's request\n" ++
  "- Ignore minor syntax/grammar mistakes\n" ++
  "- Focus on content accuracy and comprehension\n" ++
  "- Give constructive suggestions for improvement"

/-- The default rubric (interior indentation elided). -/
def defaultRubric : String :=
  "General Assignment Grading Criteria:\n" ++
  "- Content Quality and Accuracy (40 marks)\n" ++
  "- Clarity of Explanation (30 marks)\n" ++
  "- Organization and Structure (20 marks)\n" ++
  "- Grammar and Presentation (10 marks)\n\n" ++
  "Instructions:\n" ++
  "- Ignore minor syntax/grammar mistakes\n" ++
  "- Provide constructive feedback\n" ++
  "- Focus on overall understanding and presentation"

/-- The grade-emoji / grade-level bands of the PDF branch. -/
def gradeBand (percentage : ℚ) : String × String :=
  if percentage ≥ 90 then ("🏆", "Excellent")
  else if percentage ≥ 80 then ("🎉", "Very Good")
  else if percentage ≥ 70 then ("✅", "Good")
  else if percentage ≥ 60 then ("👍", "Satisfactory")
  else if percentage ≥ 50 then ("⚠️", "Needs Improvement")
  else ("❌", "Unsatisfactory")

/-- The grade response part (Python's `:.1f` decimal rendering of the
percentage is abstracted by `toString`). -/
def gradeLine (emoji level : String) (g : GradeResult) (percentage : ℚ) : String :=
  emoji ++ " **Your Grade: " ++ toString g.marks_obtained ++ "/" ++
  toString g.total_marks ++ " (" ++ toString percentage ++ "%)**\n\n🏅 **Performance:** " ++
  level ++ "\n\n📝 **Feedback:**\n" ++ g.ai_feedback

/-- What step 1 (translation + moderation + intent + explanation) of
the chat endpoint leaves behind for the later steps. -/
structure Step1Out where
  final_approved : Bool
  translation_info : Option TranslationInfo
  moderation_info : Option ModerationInfo
  explanation_result : Option ExplanationInfo
  original_language_code : Option String
  should_grade_pdf : Bool
  parts : List String
  calledPwm : Bool
  calledIntent : Bool
  calledExplain : Bool
deriving Repr

/-- Step 1 of `chat_endpoint` (`api_server.py` lines 418-519): process
the text message (when present) through translation/moderation, intent
classification, and the approved / not-approved / stage-failure
branches.  On stage failure (`result["success"]` false) only the
generic response part is appended and `should_grade_pdf` is cleared;
`final_approved` keeps its initial `True`. -/
def step1 (co : Collaborators) (req : ChatRequest) : Step1Out :=
  if req.message = "" ∨ pyStrip req.message = "" then
    { final_approved := true, translation_info := none, moderation_info := none
      explanation_result := none, original_language_code := none
      should_grade_pdf := false, parts := []
      calledPwm := false, calledIntent := false, calledExplain := false }
  else
    let r := co.pwm req.message
    if r.success then
      let olc : Option String := if ¬r.is_english then some r.original_language_code else none
      let ti : Option TranslationInfo :=
        if ¬r.is_english then
          some { original_language := r.original_language
                 translated_text := r.translated_text
                 confidence := r.translation_confidence }
        else none
      let mi : Option ModerationInfo :=
        some { approved := r.moderation_approved, confidence := r.moderation_confidence
               flagged_categories := r.flagged_categories
               explanation_text := r.moderation_explanation }
      let ir := co.intentOf r.translated_text
      let shouldGrade := ir.intent = "grading" ∧ ir.confidence > 1/2
      let shouldExplain := ir.intent = "explanation" ∧ ir.confidence > 1/2
      if r.final_approved then
        let pdfPresent := req.pdf_file.getD "" ≠ ""
        let parts1 : List String :=
          if ¬r.is_english then
            ["🌐 **Translated from " ++ r.original_language ++ ":** " ++ r.translated_text]
          else
            ["💬 **Message received and processed.**"]
        let parts2 := parts1 ++
          (if shouldGrade ∧ pdfPresent then
            ["📝 **Processing your document for grading...**"]
          else if shouldGrade ∧ ¬pdfPresent then
            ["📄 **Please upload a PDF file to grade.**"]
          else if ir.intent = "grading" ∧ ir.confidence ≤ 1/2 then
            ["🤔 **Want me to grade something?** Please upload a PDF file and be more specific."]
          else [])
        let explStep : Option ExplanationInfo × List String × Bool :=
          if shouldExplain ∧ co.explanationAvailable then
            match co.explain r.translated_text with
            | Except.ok expl0 =>
                let expl :=
                  if olc.getD "" ≠ "" then
                    let tr := translateResponseToUserLanguage co.translateTo expl0 (olc.getD "")
                    if tr.success ∧ ¬tr.skipped then tr.translated_text else expl0
                  else expl0
                (some { topic := r.translated_text, explanation_text := expl
                        intent_confidence := ir.confidence, reasoning := ir.reasoning },
                 parts2 ++ ["🎓 **Here's what I can tell you about " ++ r.translated_text
                            ++ ":**\n\n" ++ expl],
                 true)
            | Except.error _ =>
                (none,
                 parts2 ++ ["❌ **Sorry, I couldn't generate an explanation right now. Please try again.**"],
                 true)
          else if shouldExplain ∧ ¬co.explanationAvailable then
            (none, parts2 ++ ["❌ **Sorry, the explanation service is currently unavailable.**"], false)
          else if ir.intent = "explanation" ∧ ir.confidence ≤ 1/2 then
            (none, parts2 ++ ["🤔 **Want me to explain something?** Please be more specific about the topic."], false)
          else if ir.intent = "general" then
            (none, parts2 ++ ["💬 **Thanks for your message!** How can I help you today?"], false)
          else (none, parts2, false)
        let parts3 := explStep.2.1
        let parts4 :=
          if ¬r.is_english ∧ (parts3.filter (fun p => !(p.startsWith "🌐"))).length = 0 then
            parts3 ++ ["💬 **Thank you for your message. I understand what you're saying.**"]
          else parts3
        { final_approved := r.final_approved, translation_info := ti, moderation_info := mi
          explanation_result := explStep.1, original_language_code := olc
          should_grade_pdf := shouldGrade, parts := parts4
          calledPwm := true, calledIntent := true, calledExplain := explStep.2.2 }
      else
        { final_approved := r.final_approved, translation_info := ti, moderation_info := mi
          explanation_result := none, original_language_code := olc
          should_grade_pdf := false
          parts := ["❌ **Sorry, I can't process this message as it doesn't meet our content guidelines. Please try rephrasing your request.**"]
          calledPwm := true, calledIntent := true, calledExplain := false }
    else
      { final_approved := true, translation_info := none, moderation_info := none
        explanation_result := none, original_language_code := none
        should_grade_pdf := false
        parts := ["❌ **Sorry, I encountered an issue processing your message. Please try again.**"]
        calledPwm := true, calledIntent := false, calledExplain := false }

/-- What the PDF step leaves behind. -/
structure PdfOut where
  parts : List String
  grading_result : Option GradeResult
  calledGrade : Bool
deriving Repr

/-- Step 3 of `chat_endpoint` (`api_server.py` lines 521-607): grade the
PDF when one is present and grading is requested or implied. -/
def pdfStep (co : Collaborators) (req : ChatRequest) (s1 : Step1Out) : PdfOut :=
  let pdfPresent := req.pdf_file.getD "" ≠ ""
  if ¬pdfPresent then { parts := s1.parts, grading_result := none, calledGrade := false }
  else
    let blob := req.pdf_file.getD ""
    let noMsg := req.message = "" ∨ pyStrip req.message = ""
    let shouldGrade := if noMsg then true else s1.should_grade_pdf
    let parts0 :=
      if noMsg then s1.parts ++ ["📄 **PDF file received** - Processing for grading..."]
      else s1.parts
    if shouldGrade then
      if ¬co.validatePdf blob then
        { parts := parts0 ++ ["❌ **Invalid PDF file.** Please upload a valid PDF document."]
          grading_result := none, calledGrade := false }
      else
        let rubric :=
          if (¬(req.message = "" ∨ pyStrip req.message = "")) ∧ s1.translation_info.isSome then
            customRubric (match s1.translation_info with
              | some ti => ti.translated_text
              | none => req.message)
          else defaultRubric
        match co.gradePdf blob rubric with
        | Except.ok g =>
            let percentage := g.marks_obtained / g.total_marks * 100
            let band := gradeBand percentage
            { parts := parts0 ++ [gradeLine band.1 band.2 g percentage]
              grading_result := some g, calledGrade := true }
        | Except.error _ =>
            { parts := parts0 ++ ["❌ **Sorry, I couldn't process your PDF file. Please make sure it's a valid document and try again.**"]
              grading_result := none, calledGrade := true }
    else
      { parts := parts0 ++ ["📄 **I see you've uploaded a PDF file.** If you'd like me to grade it, just ask me to evaluate or assess your work!"]
        grading_result := none, calledGrade := false }

/-- `chat_endpoint` (`api_server.py` lines 366-686): empty-input
rejection, cache lookup, text-message step, PDF step, response
composition, back-translation of the composed response, and caching of
approved responses.  Returns the response, the cache after the request,
and the record of collaborator calls made.  (The outer `except` arm is
unreachable in the model, since no modelled operation raises.) -/
def chatEndpoint (co : Collaborators) (cfg : CacheConfig) (cache : CacheState)
    (now : ℚ) (req : ChatRequest) : ChatResponseM × CacheState × CallFlags :=
  let pdfPresent := req.pdf_file.getD "" ≠ ""
  if (req.message = "" ∨ pyStrip req.message = "") ∧ ¬pdfPresent then
    ({ success := false, user_message := req.message
       bot_response := "Please enter a message or upload a PDF file for me to process."
       translation_info := none, moderation_info := none, grading_result := none
       explanation_result := none, final_approved := false, error := some "Empty input" },
     cache, noFlags)
  else
    let cacheKeyMessage := req.message
    let cacheStep : Option Payload × CacheState :=
      if pyStrip cacheKeyMessage ≠ "" ∧ ¬pdfPresent then
        get cache cacheKeyMessage false now
      else (none, cache)
    match cacheStep.1 with
    | some c =>
        ({ success := c.success, user_message := cacheKeyMessage
           bot_response := "**[Cached Response]** " ++ c.bot_response
           translation_info := c.translation_info, moderation_info := none
           grading_result := none, explanation_result := c.explanation_result
           final_approved := c.final_approved, error := none },
         cacheStep.2, noFlags)
    | none =>
        let cache1 := cacheStep.2
        let s1 := step1 co req
        let p := pdfStep co req s1
        let finalBot0 :=
          if p.parts.length > 1 then String.intercalate "\n\n" p.parts
          else if p.parts.length = 1 then p.parts.headD ""
          else "✅ Processing completed!"
        let tiLang := match s1.translation_info with
          | some ti => ti.original_language
          | none => ""
        let doBackTranslate :=
          s1.translation_info.isSome ∧ tiLang ≠ "English" ∧
          s1.original_language_code.getD "" ≠ ""
        let btStep : String × Bool :=
          if doBackTranslate then
            let tr := translateResponseToUserLanguage co.translateTo finalBot0
              (s1.original_language_code.getD "")
            (if tr.success ∧ ¬tr.skipped then tr.translated_text else finalBot0, true)
          else (finalBot0, false)
        let finalBot := btStep.1
        let responseData : ResponseData :=
          { success := some true, bot_response := some finalBot
            translation_info := s1.translation_info
            explanation_result := s1.explanation_result
            final_approved := some s1.final_approved }
        let cache2 :=
          if pyStrip cacheKeyMessage ≠ "" ∧ ¬pdfPresent ∧ s1.final_approved then
            put cfg cache1 cacheKeyMessage responseData false none now
          else cache1
        ({ success := true
           user_message := if req.message = "" then "PDF file uploaded" else req.message
           bot_response := finalBot
           translation_info := s1.translation_info
           moderation_info := s1.moderation_info
           grading_result := p.grading_result
           explanation_result := s1.explanation_result
           final_approved := s1.final_approved
           error := none },
         cache2,
         { calledPwm := s1.calledPwm, calledIntent := s1.calledIntent
           calledExplain := s1.calledExplain, calledGrade := p.calledGrade
           calledTranslateBack := btStep.2 })

/-! ### Concrete oracle instances used in closed evaluations -/

/-- A benign collaborator bundle: English input, approved, general
intent, no optional services. -/
def sampleCollab : Collaborators where
  pwm := fun t =>
    { success := true, input_text := t, original_language := "English"
      original_language_code := "en", translation_confidence := 1
      translated_text := t, is_english := true, moderation_approved := true
      moderation_confidence := 1, flagged_categories := []
      moderation_explanation := "ok", final_approved := true, error := none }
  intentOf := fun _ => { intent := "general", confidence := 1, reasoning := "sample" }
  explanationAvailable := false
  explain := fun _ => Except.error "unavailable"
  validatePdf := fun _ => true
  gradePdf := fun _ _ => Except.error "unavailable"
  translateTo := fun t _ => { success := true, translated_text := t, skipped := false, error := none }

/-- A collaborator bundle whose translation/moderation stage fails
(`process_with_moderation` returns `success = False`). -/
def failCollab : Collaborators :=
  { sampleCollab with
      pwm := fun t =>
        { success := false, input_text := t, original_language := ""
          original_language_code := "", translation_confidence := 0
          translated_text := "", is_english := false, moderation_approved := false
          moderation_confidence := 0, flagged_categories := []
          moderation_explanation := "", final_approved := false
          error := some "Translation failed: detection error" } }

/-! ## Theorems for the claims -/

/-! ### Association-list and size-limit lemmas for the cache -/

theorem setKey_mem_self (cache : CacheState) (k : String) (e : Entry) :
    (k, e) ∈ setKey cache k e := by
  induction cache with
  | nil => simp [setKey]
  | cons kv rest ih =>
    obtain ⟨k', e'⟩ := kv
    by_cases hk : k' = k
    · simp [setKey, hk]
    · simp only [setKey, if_neg hk]
      exact List.mem_cons_of_mem _ ih

theorem setKey_mem_other (cache : CacheState) (k : String) (e : Entry) :
    ∀ kv ∈ setKey cache k e, kv = (k, e) ∨ kv ∈ cache := by
  induction cache with
  | nil => intro kv h; simp [setKey] at h; simp [h]
  | cons kv0 rest ih =>
    obtain ⟨k', e'⟩ := kv0
    intro kv h
    by_cases hk : k' = k
    · simp only [setKey, if_pos hk] at h
      rcases List.mem_cons.mp h with h1 | h1
      · exact Or.inl h1
      · exact Or.inr (List.mem_cons_of_mem _ h1)
    · simp only [setKey, if_neg hk] at h
      rcases List.mem_cons.mp h with h1 | h1
      · exact Or.inr (h1 ▸ List.mem_cons_self _ _)
      · rcases ih kv h1 with h2 | h2
        · exact Or.inl h2
        · exact Or.inr (List.mem_cons_of_mem _ h2)

theorem setKey_length_le (cache : CacheState) (k : String) (e : Entry) :
    (setKey cache k e).length ≤ cache.length + 1 := by
  induction cache with
  | nil => simp [setKey]
  | cons kv rest ih =>
    obtain ⟨k', e'⟩ := kv
    by_cases hk : k' = k
    · simp [setKey, hk]
    · simp only [setKey, if_neg hk, List.length_cons]
      omega

theorem setKey_keys_sub (cache : CacheState) (k : String) (e : Entry) :
    ∀ x ∈ (setKey cache k e).map Prod.fst, x = k ∨ x ∈ cache.map Prod.fst := by
  intro x hx
  rcases List.mem_map.mp hx with ⟨kv, hkv, hfst⟩
  rcases setKey_mem_other cache k e kv hkv with h1 | h1
  · left; rw [← hfst, h1]
  · right; exact List.mem_map.mpr ⟨kv, h1, hfst⟩

theorem setKey_keys_nodup (cache : CacheState) (k : String) (e : Entry)
    (hnd : (cache.map Prod.fst).Nodup) :
    ((setKey cache k e).map Prod.fst).Nodup := by
  induction cache with
  | nil => simp [setKey]
  | cons kv rest ih =>
    obtain ⟨k', e'⟩ := kv
    simp only [List.map_cons, List.nodup_cons] at hnd
    by_cases hk : k' = k
    · simp only [setKey, if_pos hk, List.map_cons, List.nodup_cons]
      exact ⟨hk ▸ hnd.1, hnd.2⟩
    · simp only [setKey, if_neg hk, List.map_cons, List.nodup_cons]
      refine ⟨?_, ih hnd.2⟩
      intro hmem
      rcases setKey_keys_sub rest k e k' hmem with h1 | h1
      · exact hk h1
      · exact hnd.1 h1

theorem setKey_of_fresh (cache : CacheState) (k : String) (e : Entry)
    (hfresh : k ∉ cache.map Prod.fst) :
    setKey cache k e = cache ++ [(k, e)] := by
  induction cache with
  | nil => simp [setKey]
  | cons kv rest ih =>
    obtain ⟨k', e'⟩ := kv
    simp only [List.map_cons, List.mem_cons] at hfresh
    push_neg at hfresh
    have hk : k' ≠ k := fun h => hfresh.1 h.symm
    simp only [setKey, if_neg hk, List.cons_append]
    rw [ih hfresh.2]

theorem eq_of_mem_keys_nodup (L : CacheState) (k : String) (e e' : Entry)
    (h1 : (k, e) ∈ L) (h2 : (k, e') ∈ L)
    (hnd : (L.map Prod.fst).Nodup) : e = e' := by
  induction L with
  | nil => cases h1
  | cons kv rest ih =>
    simp only [List.map_cons, List.nodup_cons] at hnd
    rcases List.mem_cons.mp h1 with ha | ha <;> rcases List.mem_cons.mp h2 with hb | hb
    · exact congrArg Prod.snd (ha.trans hb.symm)
    · exfalso
      apply hnd.1
      rw [← ha]
      exact List.mem_map.mpr ⟨(k, e'), hb, rfl⟩
    · exfalso
      apply hnd.1
      rw [← hb]
      exact List.mem_map.mpr ⟨(k, e), ha, rfl⟩
    · exact ih ha hb hnd.2

theorem lookupKey_eq_some_of_mem_nodup (L : CacheState) (k : String) (e : Entry)
    (hmem : (k, e) ∈ L) (hnd : (L.map Prod.fst).Nodup) :
    lookupKey L k = some e := by
  induction L with
  | nil => cases hmem
  | cons kv rest ih =>
    obtain ⟨k', e'⟩ := kv
    simp only [List.map_cons, List.nodup_cons] at hnd
    by_cases hk : k' = k
    · subst hk
      have he : e' = e := by
        rcases List.mem_cons.mp hmem with h1 | h1
        · exact (congrArg Prod.snd h1).symm
        · exfalso
          exact hnd.1 (List.mem_map.mpr ⟨(k', e), h1, rfl⟩)
      simp [lookupKey, List.find?, he]
    · have hmem' : (k, e) ∈ rest := by
        rcases List.mem_cons.mp hmem with h1 | h1
        · exact absurd (congrArg Prod.fst h1).symm hk
        · exact h1
      have hbeq : (k' == k) = false := by
        simp [hk]
      simp only [lookupKey, List.find?, hbeq] at *
      exact ih hmem' hnd.2

theorem filter_keys_nodup (L : CacheState) (p : String × Entry → Bool)
    (hnd : (L.map Prod.fst).Nodup) : ((L.filter p).map Prod.fst).Nodup :=
  hnd.sublist ((List.filter_sublist L).map Prod.fst)

/-- `_enforce_size_limit` always brings the entry count down to the
maximum (no hypotheses: the counting only uses that the removed keys
cover the first `len - max` sorted entries). -/
theorem enforceSizeLimit_length_le (cfg : CacheConfig) (L : CacheState) :
    (enforceSizeLimit cfg L).length ≤ cfg.max_entries := by
  rw [enforceSizeLimit]
  split
  · assumption
  · rename_i hgt
    push_neg at hgt
    set le := fun (a b : String × Entry) => decide (a.2.timestamp ≤ b.2.timestamp) with hle
    set sorted := L.mergeSort le with hsorted
    set n := L.length - cfg.max_entries with hn
    set toRemove := (sorted.take n).map Prod.fst with htr
    have hperm : List.Perm sorted L := List.mergeSort_perm L le
    have hpf : List.Perm (L.filter (fun kv => !(toRemove.contains kv.1)))
        (sorted.filter (fun kv => !(toRemove.contains kv.1))) :=
      (hperm.filter _).symm
    rw [hpf.length_eq]
    have hsplit : sorted = sorted.take n ++ sorted.drop n :=
      (List.take_append_drop n sorted).symm
    rw [hsplit, List.filter_append]
    have htake : (sorted.take n).filter (fun kv => !(toRemove.contains kv.1)) = [] := by
      rw [List.filter_eq_nil]
      intro kv hkv
      have hmemtr : kv.1 ∈ toRemove := List.mem_map.mpr ⟨kv, hkv, rfl⟩
      simpa using hmemtr
    rw [htake, List.nil_append]
    have hdroplen : (sorted.drop n).length = L.length - n := by
      rw [List.length_drop, hperm.length_eq]
    have := List.length_filter_le (fun kv => !(toRemove.contains kv.1)) (sorted.drop n)
    omega

/-- When the cache is at most one over the maximum and `(k, e)` is the
unique strictly-latest entry, `_enforce_size_limit` keeps it (and keeps
keys unique). -/
theorem enforceSizeLimit_keeps (cfg : CacheConfig) (L : CacheState) (k : String) (e : Entry)
    (hnd : (L.map Prod.fst).Nodup) (hmem : (k, e) ∈ L)
    (hstrict : ∀ kv ∈ L, kv.1 ≠ k → kv.2.timestamp < e.timestamp)
    (hmax : 1 ≤ cfg.max_entries) (hlen : L.length ≤ cfg.max_entries + 1) :
    (k, e) ∈ enforceSizeLimit cfg L ∧
    ((enforceSizeLimit cfg L).map Prod.fst).Nodup := by
  rw [enforceSizeLimit]
  split
  · exact ⟨hmem, hnd⟩
  · rename_i hgt
    push_neg at hgt
    have hlen' : L.length = cfg.max_entries + 1 := by omega
    set le := fun (a b : String × Entry) => decide (a.2.timestamp ≤ b.2.timestamp) with hle
    set sorted := L.mergeSort le with hsortdef
    have hperm : List.Perm sorted L := List.mergeSort_perm L le
    have hn : L.length - cfg.max_entries = 1 := by omega
    have hslen : sorted.length = cfg.max_entries + 1 := by
      rw [hperm.length_eq]
      omega
    have hsne : sorted ≠ [] := by
      intro h
      rw [h] at hslen
      simp at hslen
    obtain ⟨s0, stail, hs0⟩ := List.exists_cons_of_ne_nil hsne
    have hpair : sorted.Pairwise (fun a b => le a b) := by
      apply List.sorted_mergeSort
      · intro a b c hab hbc
        simp only [hle, decide_eq_true_eq] at *
        exact le_trans hab hbc
      · intro a b
        simp only [hle]
        rcases le_total a.2.timestamp b.2.timestamp with h | h
        · simp [h]
        · simp [h]
    have hLnd : L.Nodup := hnd.of_map Prod.fst
    have hsnd : sorted.Nodup := hperm.nodup_iff.mpr hLnd
    -- the head of the sorted list is not the new entry
    have hs0k : s0.1 ≠ k := by
      intro heq
      have hs0mem : s0 ∈ L := hperm.mem_iff.mp (hs0 ▸ List.mem_cons_self s0 stail)
      have hs0e : s0 = (k, e) := by
        have := eq_of_mem_keys_nodup L k s0.2 e
          (by rw [← heq]; exact hs0mem) hmem hnd
        rw [← heq, ← this]
      have htailne : stail ≠ [] := by
        intro h
        rw [hs0, h] at hslen
        simp at hslen
        omega
      obtain ⟨x, hx⟩ := List.exists_mem_of_ne_nil stail htailne
      have hxsorted : x ∈ sorted := hs0 ▸ List.mem_cons_of_mem _ hx
      have hxL : x ∈ L := hperm.mem_iff.mp hxsorted
      have hles0x : le s0 x := by
        rw [hs0] at hpair
        exact (List.pairwise_cons.mp hpair).1 x hx
      have hxne : x ≠ s0 := by
        intro h
        rw [hs0] at hsnd
        exact (List.nodup_cons.mp hsnd).1 (h ▸ hx)
      have hxk : x.1 ≠ k := by
        intro hxk
        have : x = (k, e) := by
          have := eq_of_mem_keys_nodup L k x.2 e
            (by rw [← hxk]; exact hxL) hmem hnd
          rw [← hxk, ← this]
        exact hxne (this.trans hs0e.symm)
      have hlt := hstrict x hxL hxk
      rw [hs0e] at hles0x
      simp only [hle, decide_eq_true_eq] at hles0x
      exact absurd hles0x (not_le.mpr hlt)
    have htake : sorted.take (L.length - cfg.max_entries) = [s0] := by
      rw [hn, hs0]
      rfl
    constructor
    · rw [List.mem_filter]
      refine ⟨hmem, ?_⟩
      rw [htake]
      simp [hs0k.symm]
    · exact filter_keys_nodup L _ hnd

/-- After `put`, the generated key maps to the just-stored slot, and
keys stay unique — provided the cache is in a normal state: entries
strictly older than `now`, within the size limit, unique keys, a
positive maximum and a nonnegative effective TTL. -/
theorem put_lookup (cfg : CacheConfig) (cache : CacheState) (m : String)
    (rd : ResponseData) (hasPdf : Bool) (ttl : Option Int) (now : ℚ)
    (hts : ∀ kv ∈ cache, kv.2.timestamp < now)
    (hlen : cache.length ≤ cfg.max_entries)
    (hnd : (cache.map Prod.fst).Nodup)
    (hmax : 1 ≤ cfg.max_entries)
    (httl : 0 ≤ cacheTtlOf cfg ttl) :
    lookupKey (put cfg cache m rd hasPdf ttl now) (generateKey m hasPdf) =
      some { value := normalizePayload rd, timestamp := now
             ttl := cacheTtlOf cfg ttl, original_message := pyTake 100 m } := by
  set k := generateKey m hasPdf with hk
  set e : Entry := { value := normalizePayload rd, timestamp := now
                     ttl := cacheTtlOf cfg ttl, original_message := pyTake 100 m } with he
  have hput : put cfg cache m rd hasPdf ttl now =
      enforceSizeLimit cfg (cleanupExpired now (setKey cache k e)) := rfl
  set L0 := setKey cache k e with hL0
  set L1 := cleanupExpired now L0 with hL1
  have hm0 : (k, e) ∈ L0 := setKey_mem_self cache k e
  have hnd0 : (L0.map Prod.fst).Nodup := setKey_keys_nodup cache k e hnd
  have hm1 : (k, e) ∈ L1 := by
    rw [hL1, cleanupExpired, List.mem_filter]
    refine ⟨hm0, ?_⟩
    simp only [he, decide_eq_true_eq]
    have : ((cacheTtlOf cfg ttl : Int) : ℚ) ≥ 0 := by
      exact_mod_cast httl
    linarith
  have hnd1 : (L1.map Prod.fst).Nodup := filter_keys_nodup L0 _ hnd0
  have hstrict1 : ∀ kv ∈ L1, kv.1 ≠ k → kv.2.timestamp < e.timestamp := by
    intro kv hkv hne
    have hkv0 : kv ∈ L0 := List.mem_of_mem_filter hkv
    rcases setKey_mem_other cache k e kv hkv0 with h1 | h1
    · exact absurd (congrArg Prod.fst h1) hne
    · exact hts kv h1
  have hlen1 : L1.length ≤ cfg.max_entries + 1 := by
    have h1 : L1.length ≤ L0.length := by
      rw [hL1, cleanupExpired]
      exact List.length_filter_le _ L0
    have h2 : L0.length ≤ cache.length + 1 := by
      rw [hL0]
      exact setKey_length_le cache k e
    omega
  have hkeep := enforceSizeLimit_keeps cfg L1 k e hnd1 hm1 hstrict1 hmax hlen1
  rw [hput]
  exact lookupKey_eq_some_of_mem_nodup _ k e hkeep.1 hkeep.2

/-- C3: cache round-trip — after `put(m, r, false)` with the default
TTL, an immediate `get(m, false)` returns the stored normalisation of
`r` (the minimal payload), never absent.  The cache-state hypotheses
describe any normal state: entries inserted strictly earlier, size
within the maximum, unique keys, positive maximum, nonnegative default
TTL (the constructor defaults are `200` and `3600`). -/
theorem cache_put_get_roundtrip (cfg : CacheConfig) (cache : CacheState)
    (m : String) (rd : ResponseData) (now : ℚ)
    (hm : m ≠ "")
    (hts : ∀ kv ∈ cache, kv.2.timestamp < now)
    (hlen : cache.length ≤ cfg.max_entries)
    (hnd : (cache.map Prod.fst).Nodup)
    (hmax : 1 ≤ cfg.max_entries)
    (httl : 0 ≤ cfg.default_ttl) :
    (get (put cfg cache m rd false none now) m false now).1 =
      some (normalizePayload rd) := by
  have httl' : 0 ≤ cacheTtlOf cfg none := httl
  have hl := put_lookup cfg cache m rd false none now hts hlen hnd hmax httl'
  rw [get]
  simp only [hl]
  have hnotexp : ¬(now - now > ((cacheTtlOf cfg none : Int) : ℚ)) := by
    have : ((cacheTtlOf cfg none : Int) : ℚ) ≥ 0 := by exact_mod_cast httl'
    simp
    linarith
  rw [if_neg hnotexp]

/-- C3 witness: concrete round-trip on the default configuration from
the empty cache. -/
theorem cache_put_get_roundtrip_witness :
    (get (put defaultCacheConfig [] "what is gravity"
        { bot_response := some "Gravity is a force.", translation_info := none
          explanation_result := none, final_approved := some true
          success := some true } false none 0) "what is gravity" false 0).1 =
      some (normalizePayload
        { bot_response := some "Gravity is a force.", translation_info := none
          explanation_result := none, final_approved := some true
          success := some true }) :=
  cache_put_get_roundtrip defaultCacheConfig [] "what is gravity"
    { bot_response := some "Gravity is a force.", translation_info := none
      explanation_result := none, final_approved := some true
      success := some true } 0
    (by decide) (by intro kv h; cases h) (by decide) (by simp) (by decide) (by decide)

/-- C5 (amended): TTL semantics for a **positive** TTL override `t`: an
entry stored with `ttl = t` at time `s` is still returned at any
elapsed time `0 ≤ e ≤ t`, and reported absent — and deleted — at any
elapsed time `e > t` (simulated clock).  A zero override is silently
replaced by the default TTL by `ttl or self.default_ttl`, so the claim
as stated fails at `t = 0` (see the counterexample). -/
theorem cache_ttl_semantics (cfg : CacheConfig) (cache : CacheState)
    (m : String) (rd : ResponseData) (t : Int) (s e : ℚ)
    (ht : 1 ≤ t)
    (hts : ∀ kv ∈ cache, kv.2.timestamp < s)
    (hlen : cache.length ≤ cfg.max_entries)
    (hnd : (cache.map Prod.fst).Nodup)
    (hmax : 1 ≤ cfg.max_entries) :
    (e ≤ (t : ℚ) →
      (get (put cfg cache m rd false (some t) s) m false (s + e)).1 =
        some (normalizePayload rd)) ∧
    ((t : ℚ) < e →
      (get (put cfg cache m rd false (some t) s) m false (s + e)).1 = none ∧
      (get (put cfg cache m rd false (some t) s) m false (s + e)).2 =
        removeKey (put cfg cache m rd false (some t) s) (generateKey m false)) := by
  have htne : t ≠ 0 := by omega
  have httlval : cacheTtlOf cfg (some t) = t := by
    simp [cacheTtlOf, htne]
  have httl' : 0 ≤ cacheTtlOf cfg (some t) := by omega
  have hl := put_lookup cfg cache m rd false (some t) s hts hlen hnd hmax httl'
  constructor
  · intro hle
    rw [get]
    simp only [hl]
    have hnotexp : ¬((s + e) - s > ((cacheTtlOf cfg (some t) : Int) : ℚ)) := by
      rw [httlval]
      simp
      linarith
    rw [if_neg hnotexp]
  · intro hgt
    rw [get]
    simp only [hl]
    have hexp : (s + e) - s > ((cacheTtlOf cfg (some t) : Int) : ℚ) := by
      rw [httlval]
      simp
      linarith
    rw [if_pos hexp]
    exact ⟨rfl, rfl⟩

/-- C5 witness: with `t = 5`, the entry is present at elapsed time `3`
and absent (with the slot deleted) at elapsed time `7`. -/
theorem cache_ttl_semantics_witness :
    (get (put defaultCacheConfig [] "hola amigo"
        { bot_response := some "¡hola!", translation_info := none
          explanation_result := none, final_approved := some true
          success := some true } false (some 5) 0) "hola amigo" false (0 + 3)).1 =
      some (normalizePayload
        { bot_response := some "¡hola!", translation_info := none
          explanation_result := none, final_approved := some true
          success := some true }) ∧
    (get (put defaultCacheConfig [] "hola amigo"
        { bot_response := some "¡hola!", translation_info := none
          explanation_result := none, final_approved := some true
          success := some true } false (some 5) 0) "hola amigo" false (0 + 7)).1 = none := by
  constructor
  · exact (cache_ttl_semantics defaultCacheConfig [] "hola amigo" _ 5 0 3
      (by decide) (by intro kv h; cases h) (by decide) (by simp) (by decide)).1
      (by norm_num)
  · exact ((cache_ttl_semantics defaultCacheConfig [] "hola amigo" _ 5 0 7
      (by decide) (by intro kv h; cases h) (by decide) (by simp) (by decide)).2
      (by norm_num)).1

/-- C5 counterexample: the claim as stated fails for the TTL override
`t = 0`.  Because `put` computes `ttl or self.default_ttl`, a zero
override falls back to the one-hour default, so one second after
insertion (strictly after `t = 0` seconds) the entry is still
returned, where the claim requires it to be absent. -/
theorem cache_ttl_zero_cex :
    (get (put defaultCacheConfig [] "hello"
        { bot_response := some "hi", translation_info := none
          explanation_result := none, final_approved := some true
          success := some true } false (some 0) 0) "hello" false 1).1 =
      some (normalizePayload
        { bot_response := some "hi", translation_info := none
          explanation_result := none, final_approved := some true
          success := some true }) := by
  have hl := put_lookup defaultCacheConfig [] "hello"
    { bot_response := some "hi", translation_info := none
      explanation_result := none, final_approved := some true
      success := some true } false (some 0) 0
    (by intro kv h; cases h) (by decide) (by simp) (by decide) (by decide)
  rw [get]
  simp only [hl]
  have hne : ¬((1 : ℚ) - 0 > ((cacheTtlOf defaultCacheConfig (some 0) : Int) : ℚ)) := by
    norm_num [cacheTtlOf, defaultCacheConfig]
  rw [if_neg hne]

/-! ### Similarity-scan lemmas -/

theorem jaccard_of_inter_empty (a b : Finset String) (h : a ∩ b = ∅) :
    jaccard a b = 0 := by
  rw [jaccard]
  split
  · rfl
  · rw [h]
    simp

theorem inter_nonempty_of_jaccard_pos (a b : Finset String)
    (h : 0 < jaccard a b) : a ∩ b ≠ ∅ := by
  intro hi
  rw [jaccard_of_inter_empty a b hi] at h
  exact lt_irrefl 0 h

theorem jaccard_empty_right (a : Finset String) : jaccard a ∅ = 0 :=
  jaccard_of_inter_empty a ∅ (by simp)

theorem bestMatchAux_score_le (iw : Finset String) (thr : ℚ) :
    ∀ (l : List (String × Entry)) (best : Option Payload) (score : ℚ),
      score ≤ (bestMatchAux iw thr l best score).2 := by
  intro l
  induction l with
  | nil => intro best score; simp [bestMatchAux]
  | cons kv rest ih =>
    intro best score
    obtain ⟨k, e⟩ := kv
    by_cases h1 : cachedWords e = ∅
    · rw [bestMatchAux, if_pos h1]
      exact ih best score
    · by_cases h2 : jaccard iw (cachedWords e) > score ∧ jaccard iw (cachedWords e) ≥ thr
      · rw [bestMatchAux, if_neg h1, if_pos h2]
        exact le_trans (le_of_lt h2.1) (ih (some e.value) _)
      · rw [bestMatchAux, if_neg h1, if_neg h2]
        exact ih best score

theorem bestMatchAux_ge_qualifying (iw : Finset String) (thr : ℚ) (hthr : 0 < thr) :
    ∀ (l : List (String × Entry)) (best : Option Payload) (score : ℚ)
      (k : String) (e : Entry), (k, e) ∈ l → thr ≤ jaccard iw (cachedWords e) →
      jaccard iw (cachedWords e) ≤ (bestMatchAux iw thr l best score).2 := by
  intro l
  induction l with
  | nil => intro best score k e hmem; cases hmem
  | cons kv rest ih =>
    intro best score k e hmem hq
    obtain ⟨k', e'⟩ := kv
    rcases List.mem_cons.mp hmem with hhd | htl
    · have he : e = e' := congrArg Prod.snd hhd
      subst he
      by_cases h1 : cachedWords e = ∅
      · exfalso
        rw [h1, jaccard_empty_right] at hq
        exact absurd (lt_of_lt_of_le hthr hq) (lt_irrefl 0)
      · by_cases h2 : jaccard iw (cachedWords e) > score ∧ jaccard iw (cachedWords e) ≥ thr
        · rw [bestMatchAux, if_neg h1, if_pos h2]
          exact bestMatchAux_score_le iw thr rest (some e.value) _
        · rw [bestMatchAux, if_neg h1, if_neg h2]
          have hle : jaccard iw (cachedWords e) ≤ score := by
            rcases not_and_or.mp h2 with h3 | h3
            · exact le_of_not_lt h3
            · exact absurd hq (by simpa using h3)
          exact le_trans hle (bestMatchAux_score_le iw thr rest best score)
    · by_cases h1 : cachedWords e' = ∅
      · rw [bestMatchAux, if_pos h1]
        exact ih best score k e htl hq
      · by_cases h2 : jaccard iw (cachedWords e') > score ∧ jaccard iw (cachedWords e') ≥ thr
        · rw [bestMatchAux, if_neg h1, if_pos h2]
          exact ih (some e'.value) _ k e htl hq
        · rw [bestMatchAux, if_neg h1, if_neg h2]
          exact ih best score k e htl hq

theorem bestMatchAux_result_cases (iw : Finset String) (thr : ℚ) :
    ∀ (l : List (String × Entry)) (best : Option Payload) (score : ℚ),
      bestMatchAux iw thr l best score = (best, score) ∨
      ∃ k e, (k, e) ∈ l ∧ cachedWords e ≠ ∅ ∧
        (bestMatchAux iw thr l best score).1 = some e.value ∧
        (bestMatchAux iw thr l best score).2 = jaccard iw (cachedWords e) ∧
        thr ≤ jaccard iw (cachedWords e) := by
  intro l
  induction l with
  | nil => intro best score; exact Or.inl rfl
  | cons kv rest ih =>
    intro best score
    obtain ⟨k', e'⟩ := kv
    by_cases h1 : cachedWords e' = ∅
    · rw [bestMatchAux, if_pos h1]
      rcases ih best score with h | ⟨k, e, hmem, hne, ha, hb, hc⟩
      · exact Or.inl h
      · exact Or.inr ⟨k, e, List.mem_cons_of_mem _ hmem, hne, ha, hb, hc⟩
    · by_cases h2 : jaccard iw (cachedWords e') > score ∧ jaccard iw (cachedWords e') ≥ thr
      · rw [bestMatchAux, if_neg h1, if_pos h2]
        rcases ih (some e'.value) (jaccard iw (cachedWords e')) with h | ⟨k, e, hmem, hne, ha, hb, hc⟩
        · refine Or.inr ⟨k', e', List.mem_cons_self _ _, h1, ?_, ?_, h2.2⟩
          · rw [h]
          · rw [h]
        · exact Or.inr ⟨k, e, List.mem_cons_of_mem _ hmem, hne, ha, hb, hc⟩
      · rw [bestMatchAux, if_neg h1, if_neg h2]
        rcases ih best score with h | ⟨k, e, hmem, hne, ha, hb, hc⟩
        · exact Or.inl h
        · exact Or.inr ⟨k, e, List.mem_cons_of_mem _ hmem, hne, ha, hb, hc⟩

/-- C7: `_find_similar_cached_response` at the default threshold `0.3`
returns a stored payload only when some stored entry's (truncated,
normalised) original message has token-set Jaccard similarity at least
`0.3` with the normalised query; the returned payload belongs to an
entry of maximal similarity among qualifying entries and shares at
least one token with the query (so zero-overlap entries never match);
and whenever some entry reaches similarity `0.3`, a payload is
returned. -/
theorem similarity_fallback_spec (cache : CacheState) (m : String) :
    (∀ p, findSimilarCachedResponse cache m (3/10) = some p →
      ∃ k e, (k, e) ∈ cache ∧ p = e.value ∧
        3/10 ≤ jaccard (wordSet (normalizeKey m)) (cachedWords e) ∧
        wordSet (normalizeKey m) ∩ cachedWords e ≠ ∅ ∧
        ∀ k' e', (k', e') ∈ cache →
          3/10 ≤ jaccard (wordSet (normalizeKey m)) (cachedWords e') →
          jaccard (wordSet (normalizeKey m)) (cachedWords e') ≤
            jaccard (wordSet (normalizeKey m)) (cachedWords e)) ∧
    ((∃ k e, (k, e) ∈ cache ∧
        3/10 ≤ jaccard (wordSet (normalizeKey m)) (cachedWords e)) →
      findSimilarCachedResponse cache m (3/10) ≠ none) := by
  have hthr : (0 : ℚ) < 3/10 := by norm_num
  constructor
  · intro p hp
    rw [findSimilarCachedResponse] at hp
    rcases bestMatchAux_result_cases (wordSet (normalizeKey m)) (3/10) cache none 0 with
      h | ⟨k, e, hmem, hne, ha, hb, hc⟩
    · rw [h] at hp
      cases hp
    · refine ⟨k, e, hmem, ?_, hc, ?_, ?_⟩
      · rw [ha] at hp
        exact (Option.some.injEq _ _ ▸ hp).symm
      · exact inter_nonempty_of_jaccard_pos _ _ (lt_of_lt_of_le hthr hc)
      · intro k' e' hmem' hq'
        have := bestMatchAux_ge_qualifying (wordSet (normalizeKey m)) (3/10) hthr
          cache none 0 k' e' hmem' hq'
        rw [hb] at this
        exact this
  · rintro ⟨k, e, hmem, hq⟩ hnone
    have hge := bestMatchAux_ge_qualifying (wordSet (normalizeKey m)) (3/10) hthr
      cache none 0 k e hmem hq
    rcases bestMatchAux_result_cases (wordSet (normalizeKey m)) (3/10) cache none 0 with
      h | ⟨k', e', _, _, ha, _, _⟩
    · rw [findSimilarCachedResponse, h] at hnone
      rw [h] at hge
      simp at hnone
      have : (3 : ℚ)/10 ≤ 0 := le_trans hq hge
      norm_num at this
    · rw [findSimilarCachedResponse, ha] at hnone
      cases hnone

/-- C7 witness: a query sharing two of three tokens with a stored
message (Jaccard `2/3 ≥ 0.3`) produces a hit. -/
theorem similarity_fallback_spec_witness :
    findSimilarCachedResponse
      [("k1", { value := { bot_response := "Gravity is a force.", translation_info := none
                           explanation_result := none, final_approved := true
                           success := true, is_fallback := false }
                timestamp := 0, ttl := 3600, original_message := "hello world" })]
      "hello there world" (3/10) ≠ none :=
  (similarity_fallback_spec
    [("k1", { value := { bot_response := "Gravity is a force.", translation_info := none
                         explanation_result := none, final_approved := true
                         success := true, is_fallback := false }
              timestamp := 0, ttl := 3600, original_message := "hello world" })]
    "hello there world").2
    ⟨"k1",
     { value := { bot_response := "Gravity is a force.", translation_info := none
                  explanation_result := none, final_approved := true
                  success := true, is_fallback := false }
       timestamp := 0, ttl := 3600, original_message := "hello world" },
     List.mem_singleton.mpr rfl, by
      have hj : jaccard (wordSet (normalizeKey "hello there world"))
          (wordSet (normalizeKey "hello world")) = 2/3 := by
        rw [jaccard, if_neg (by decide)]
        rw [show (wordSet (normalizeKey "hello there world") ∩
              wordSet (normalizeKey "hello world")).card = 2 from by decide]
        rw [show (wordSet (normalizeKey "hello there world") ∪
              wordSet (normalizeKey "hello world")).card = 3 from by decide]
        norm_num
      show (3:ℚ)/10 ≤ jaccard (wordSet (normalizeKey "hello there world"))
        (wordSet (normalizeKey "hello world"))
      rw [hj]
      norm_num⟩

theorem lookupKey_mem (cache : CacheState) (k : String) (e : Entry)
    (h : lookupKey cache k = some e) : ∃ kv, kv ∈ cache ∧ kv.2 = e := by
  rw [lookupKey] at h
  cases hf : cache.find? (fun kv => kv.1 == k) with
  | none => rw [hf] at h; cases h
  | some kv =>
      rw [hf] at h
      have he : kv.2 = e := by injection h
      exact ⟨kv, List.mem_of_find?_eq_some hf, he⟩

/-- C10 (amended): the cache's public operations are total in the
model; `get` returns either absent or the payload of a stored entry;
`get_fallback_response` returns a payload with `is_fallback` set and
`success = true` in its canned path and in its exception path — but
when a similar cached response is found, it returns the stored payload
(with an annotation banner) as-is, without the `is_fallback` marker
and with the stored `success` flag. -/
theorem cache_fallback_structure (cache : CacheState) (m ec iso : String) :
    (findSimilarCachedResponse cache m (3/10) = none →
      (getFallbackResponse cache m ec iso).is_fallback = true ∧
      (getFallbackResponse cache m ec iso).success = true) ∧
    (∀ p, findSimilarCachedResponse cache m (3/10) = some p →
      getFallbackResponse cache m ec iso =
        { p with bot_response :=
            "**[Cached Response]** Service temporarily unavailable. Here's a previous similar response:\n\n"
            ++ p.bot_response }) ∧
    ((getFallbackResponseOnError m).is_fallback = true ∧
     (getFallbackResponseOnError m).success = true) ∧
    (∀ (q : String) (hp : Bool) (now : ℚ),
      (get cache q hp now).1 = none ∨
      ∃ kv, kv ∈ cache ∧ (get cache q hp now).1 = some kv.2.value) := by
  refine ⟨?_, ?_, ⟨rfl, rfl⟩, ?_⟩
  · intro hnone
    rw [getFallbackResponse, hnone]
    exact ⟨rfl, rfl⟩
  · intro p hp
    rw [getFallbackResponse, hp]
  · intro q hp now
    cases hlk : lookupKey cache (generateKey q hp) with
    | none =>
        left
        simp [get, hlk]
    | some e =>
        obtain ⟨kv, hkv, hkve⟩ := lookupKey_mem cache _ e hlk
        by_cases hexp : now - e.timestamp > (e.ttl : ℚ)
        · left
          simp [get, hlk, hexp]
        · right
          refine ⟨kv, hkv, ?_⟩
          simp [get, hlk, hexp, hkve]

/-- C10 witness: on the empty cache (no similar entry), the fallback
payload carries `is_fallback = true` and `success = true`. -/
theorem cache_fallback_structure_witness :
    (getFallbackResponse [] "help me" "network" "2026-01-01T00:00:00").is_fallback = true ∧
    (getFallbackResponse [] "help me" "network" "2026-01-01T00:00:00").success = true :=
  (cache_fallback_structure [] "help me" "network" "2026-01-01T00:00:00").1 rfl

/-- C10 counterexample: when a similar cached response exists (here an
exact token match), `get_fallback_response` returns the stored payload
without the `is_fallback` marker, so the returned payload is not
"marked is_fallback" as the claim requires. -/
theorem cache_fallback_missing_marker_cex :
    (getFallbackResponse
      [("k1", { value := { bot_response := "Hi!", translation_info := none
                           explanation_result := none, final_approved := true
                           success := true, is_fallback := false }
                timestamp := 0, ttl := 3600, original_message := "hello world" })]
      "hello world" "network" "2026-01-01T00:00:00").is_fallback = false := by
  have hj : jaccard (wordSet (normalizeKey "hello world"))
      (wordSet (normalizeKey "hello world")) = 1 := by
    rw [jaccard, if_neg (by decide)]
    rw [show (wordSet (normalizeKey "hello world") ∩
          wordSet (normalizeKey "hello world")).card = 2 from by decide]
    rw [show (wordSet (normalizeKey "hello world") ∪
          wordSet (normalizeKey "hello world")).card = 2 from by decide]
    norm_num
  have hcw : cachedWords
      { value := { bot_response := "Hi!", translation_info := none
                   explanation_result := none, final_approved := true
                   success := true, is_fallback := false }
        timestamp := 0, ttl := 3600, original_message := "hello world" } =
      wordSet (normalizeKey "hello world") := rfl
  have hfs : findSimilarCachedResponse
      [("k1", { value := { bot_response := "Hi!", translation_info := none
                           explanation_result := none, final_approved := true
                           success := true, is_fallback := false }
                timestamp := 0, ttl := 3600, original_message := "hello world" })]
      "hello world" (3/10) =
      some { bot_response := "Hi!", translation_info := none
             explanation_result := none, final_approved := true
             success := true, is_fallback := false } := by
    rw [findSimilarCachedResponse, bestMatchAux]
    rw [if_neg (by rw [hcw]; decide)]
    rw [if_pos (by rw [hcw, hj]; norm_num)]
    rfl
  rw [getFallbackResponse, hfs]

/-! ### Bulk-insert lemmas for the eviction claim -/

theorem cleanup_keeps_window (cfg : CacheConfig)
    (done : List (String × ResponseData × ℚ)) (it : String × ResponseData × ℚ)
    (hrel : ∀ d ∈ done, it.2.2 - d.2.2 ≤ (cfg.default_ttl : ℚ))
    (httl : (0 : Int) ≤ cfg.default_ttl) :
    cleanupExpired it.2.2 ((done.map (itemKV cfg)) ++ [itemKV cfg it]) =
      (done.map (itemKV cfg)) ++ [itemKV cfg it] := by
  rw [cleanupExpired, List.filter_eq_self]
  intro kv hkv
  rcases List.mem_append.mp hkv with hkd | hkl
  · rcases List.mem_map.mp hkd with ⟨d, hd, hdkv⟩
    subst hdkv
    simp only [itemKV, decide_eq_true_eq]
    exact hrel d hd
  · have hkv' : kv = itemKV cfg it := by simpa using hkl
    subst hkv'
    simp only [itemKV, decide_eq_true_eq]
    have hc : ((cfg.default_ttl : Int) : ℚ) ≥ 0 := by exact_mod_cast httl
    linarith

theorem putSeq_inv (cfg : CacheConfig) :
    ∀ (items done : List (String × ResponseData × ℚ)),
      ((done ++ items).map (fun it => generateKey it.1 false)).Nodup →
      (done ++ items).Pairwise
        (fun a b => a.2.2 < b.2.2 ∧ b.2.2 - a.2.2 ≤ (cfg.default_ttl : ℚ)) →
      (0 : Int) ≤ cfg.default_ttl →
      (done ++ items).length ≤ cfg.max_entries →
      putSeq cfg items (done.map (itemKV cfg)) = (done ++ items).map (itemKV cfg) := by
  intro items
  induction items with
  | nil =>
    intro done _ _ _ _
    simp [putSeq]
  | cons it rest ih =>
    intro done hknd hpair httl hlen
    have hfresh : generateKey it.1 false ∉ (done.map (itemKV cfg)).map Prod.fst := by
      intro hmem
      rw [List.map_map] at hmem
      have hmem' : generateKey it.1 false ∈ done.map (fun d => generateKey d.1 false) := by
        simpa [Function.comp, itemKV] using hmem
      rw [List.map_append] at hknd
      have hdisj := (List.nodup_append.mp hknd).2.2
      exact hdisj hmem' (by simp)
    have hrel : ∀ d ∈ done, it.2.2 - d.2.2 ≤ (cfg.default_ttl : ℚ) := by
      intro d hd
      have := (List.pairwise_append.mp hpair).2.2 d hd it (by simp)
      exact this.2
    have hstep : put cfg (done.map (itemKV cfg)) it.1 it.2.1 false none it.2.2 =
        (done ++ [it]).map (itemKV cfg) := by
      have hsk : setKey (done.map (itemKV cfg)) (generateKey it.1 false)
          { value := normalizePayload it.2.1, timestamp := it.2.2
            ttl := cacheTtlOf cfg none, original_message := pyTake 100 it.1 } =
          (done.map (itemKV cfg)) ++ [itemKV cfg it] := by
        rw [setKey_of_fresh _ _ _ hfresh]
        rfl
      have hlen2 : ((done.map (itemKV cfg)) ++ [itemKV cfg it]).length ≤ cfg.max_entries := by
        have hl := hlen
        simp only [List.length_append, List.length_cons, List.length_map,
          List.length_singleton, List.length_nil] at hl ⊢
        omega
      simp only [put]
      rw [hsk, cleanup_keeps_window cfg done it hrel httl, enforceSizeLimit, if_pos hlen2]
      rw [List.map_append]
      rfl
    have hfold : putSeq cfg (it :: rest) (done.map (itemKV cfg)) =
        putSeq cfg rest ((done ++ [it]).map (itemKV cfg)) := by
      rw [putSeq, List.foldl_cons, hstep]
      rfl
    rw [hfold]
    have hres := ih (done ++ [it])
      (by simpa using hknd) (by simpa using hpair) httl (by simpa using hlen)
    rw [hres]
    simp

theorem filter_head_key (f0 : String × Entry) (ftail : CacheState)
    (hnd : ((f0 :: ftail).map Prod.fst).Nodup) :
    (f0 :: ftail).filter (fun kv => !([f0.1].contains kv.1)) = ftail := by
  rw [List.filter_cons]
  have h0 : (!([f0.1].contains f0.1)) = false := by simp
  rw [h0]
  simp only [Bool.false_eq_true, if_false]
  rw [List.filter_eq_self]
  intro kv hkv
  simp only [List.map_cons, List.nodup_cons] at hnd
  have hne : kv.1 ≠ f0.1 := by
    intro h
    exact hnd.1 (h ▸ List.mem_map.mpr ⟨kv, hkv, rfl⟩)
  simp [hne]

/-- C4: size invariant and eviction order.  (1) After every call to
`put` the entry count is at most the configured maximum.  (2) Starting
from the empty cache and inserting `max + 1` items with distinct keys,
strictly increasing timestamps and TTL windows that keep every entry
alive, exactly `max` entries remain and the evicted one is the entry
with the oldest insertion timestamp (the first inserted).  (3) A `get`
that returns a payload leaves the cache unchanged, so eviction is
independent of which entries were read. -/
theorem cache_size_invariant_and_eviction (cfg : CacheConfig)
    (cache : CacheState) (m : String) (rd : ResponseData) (hasPdf : Bool)
    (ttl : Option Int) (now : ℚ)
    (init : List (String × ResponseData × ℚ)) (last : String × ResponseData × ℚ)
    (hknd : ((init ++ [last]).map (fun it => generateKey it.1 false)).Nodup)
    (hpair : (init ++ [last]).Pairwise
      (fun a b => a.2.2 < b.2.2 ∧ b.2.2 - a.2.2 ≤ (cfg.default_ttl : ℚ)))
    (httl : (0 : Int) ≤ cfg.default_ttl)
    (hcnt : init.length = cfg.max_entries)
    (hmax : 1 ≤ cfg.max_entries) :
    (put cfg cache m rd hasPdf ttl now).length ≤ cfg.max_entries ∧
    putSeq cfg (init ++ [last]) [] = ((init ++ [last]).map (itemKV cfg)).tail ∧
    (putSeq cfg (init ++ [last]) []).length = cfg.max_entries ∧
    (∀ (S : CacheState) (q : String) (hpq : Bool) (n : ℚ) (p : Payload),
      (get S q hpq n).1 = some p → (get S q hpq n).2 = S) := by
  have hinitnd : (init.map (fun it => generateKey it.1 false)).Nodup := by
    rw [List.map_append] at hknd
    exact (List.nodup_append.mp hknd).1
  have hinitpair : init.Pairwise
      (fun a b => a.2.2 < b.2.2 ∧ b.2.2 - a.2.2 ≤ (cfg.default_ttl : ℚ)) :=
    hpair.sublist (List.sublist_append_left init [last])
  have hinit : putSeq cfg init [] = init.map (itemKV cfg) := by
    have := putSeq_inv cfg init [] (by simpa using hinitnd)
      (by simpa using hinitpair) httl (by simp [hcnt])
    simpa using this
  have hfullkeys : (((init ++ [last]).map (itemKV cfg)).map Prod.fst).Nodup := by
    rw [List.map_map]
    have : (Prod.fst ∘ itemKV cfg) = (fun it => generateKey it.1 false) := by
      funext d
      rfl
    rw [this]
    exact hknd
  have hsplit : putSeq cfg (init ++ [last]) [] =
      put cfg (init.map (itemKV cfg)) last.1 last.2.1 false none last.2.2 := by
    have h1 : putSeq cfg (init ++ [last]) [] =
        putSeq cfg [last] (putSeq cfg init []) := by
      simp [putSeq, List.foldl_append]
    rw [h1, hinit]
    simp [putSeq]
  have hfresh : generateKey last.1 false ∉ (init.map (itemKV cfg)).map Prod.fst := by
    intro hmem
    rw [List.map_map] at hmem
    have hmem' : generateKey last.1 false ∈ init.map (fun d => generateKey d.1 false) := by
      simpa [Function.comp, itemKV] using hmem
    rw [List.map_append] at hknd
    exact (List.nodup_append.mp hknd).2.2 hmem' (by simp)
  have hrel : ∀ d ∈ init, last.2.2 - d.2.2 ≤ (cfg.default_ttl : ℚ) := by
    intro d hd
    have := (List.pairwise_append.mp hpair).2.2 d hd last (by simp)
    exact this.2
  have hfinal : put cfg (init.map (itemKV cfg)) last.1 last.2.1 false none last.2.2 =
      ((init ++ [last]).map (itemKV cfg)).tail := by
    have hsk : setKey (init.map (itemKV cfg)) (generateKey last.1 false)
        { value := normalizePayload last.2.1, timestamp := last.2.2
          ttl := cacheTtlOf cfg none, original_message := pyTake 100 last.1 } =
        (init.map (itemKV cfg)) ++ [itemKV cfg last] := by
      rw [setKey_of_fresh _ _ _ hfresh]
      rfl
    have hfull : (init.map (itemKV cfg)) ++ [itemKV cfg last] =
        (init ++ [last]).map (itemKV cfg) := by
      rw [List.map_append]
      rfl
    have hlenfull : ((init ++ [last]).map (itemKV cfg)).length = cfg.max_entries + 1 := by
      simp [hcnt]
    have hgt : ¬(((init ++ [last]).map (itemKV cfg)).length ≤ cfg.max_entries) := by
      rw [hlenfull]
      omega
    have hsortpair : ((init ++ [last]).map (itemKV cfg)).Pairwise
        (fun a b => (decide (a.2.timestamp ≤ b.2.timestamp)) = true) := by
      rw [List.pairwise_map]
      apply hpair.imp
      intro a b hab
      simp only [itemKV, decide_eq_true_eq]
      exact le_of_lt hab.1
    have hsorted : ((init ++ [last]).map (itemKV cfg)).mergeSort
        (fun a b => decide (a.2.timestamp ≤ b.2.timestamp)) =
        (init ++ [last]).map (itemKV cfg) :=
      List.mergeSort_of_sorted hsortpair
    simp only [put]
    rw [hsk, cleanup_keeps_window cfg init last hrel httl, hfull]
    rw [enforceSizeLimit, if_neg hgt, hsorted, hlenfull]
    have hn1 : cfg.max_entries + 1 - cfg.max_entries = 1 := by omega
    rw [hn1]
    obtain ⟨i0, irest, hi0⟩ : ∃ i0 irest, init = i0 :: irest := by
      cases init with
      | nil => simp at hcnt; omega
      | cons a l => exact ⟨a, l, rfl⟩
    rw [hi0]
    simp only [List.cons_append, List.map_cons, List.map_nil, List.take_cons_succ,
      List.take_zero]
    rw [filter_head_key]
    · rfl
    · have := hfullkeys
      rw [hi0] at this
      simpa using this
  refine ⟨?_, ?_, ?_, ?_⟩
  · simp only [put]
    exact enforceSizeLimit_length_le cfg _
  · rw [hsplit, hfinal]
  · rw [hsplit, hfinal]
    simp [hcnt]
  · intro S q hpq n p hp
    cases hlk : lookupKey S (generateKey q hpq) with
    | none =>
      simp [get, hlk] at hp
    | some e =>
      by_cases hexp : n - e.timestamp > (e.ttl : ℚ)
      · simp [get, hlk, hexp] at hp
      · simp [get, hlk, hexp]

/-- C4 witness: `max = 2`, three inserts with distinct keys at times
`0 < 1 < 2`; the first-inserted entry is evicted and two remain. -/
theorem cache_size_invariant_and_eviction_witness :
    (put ⟨2, 3600⟩ [] "x" (rdOf "r") false none 0).length ≤ 2 ∧
    putSeq ⟨2, 3600⟩
      ([("aa", rdOf "r1", (0 : ℚ)), ("bb", rdOf "r2", (1 : ℚ))] ++
       [("cc", rdOf "r3", (2 : ℚ))]) [] =
      (([("aa", rdOf "r1", (0 : ℚ)), ("bb", rdOf "r2", (1 : ℚ))] ++
        [("cc", rdOf "r3", (2 : ℚ))]).map (itemKV ⟨2, 3600⟩)).tail ∧
    (putSeq ⟨2, 3600⟩
      ([("aa", rdOf "r1", (0 : ℚ)), ("bb", rdOf "r2", (1 : ℚ))] ++
       [("cc", rdOf "r3", (2 : ℚ))]) []).length = 2 ∧
    (∀ (S : CacheState) (q : String) (hpq : Bool) (n : ℚ) (p : Payload),
      (get S q hpq n).1 = some p → (get S q hpq n).2 = S) :=
  cache_size_invariant_and_eviction ⟨2, 3600⟩ [] "x" (rdOf "r") false none 0
    [("aa", rdOf "r1", (0 : ℚ)), ("bb", rdOf "r2", (1 : ℚ))]
    ("cc", rdOf "r3", (2 : ℚ))
    (by decide)
    (by
      refine List.Pairwise.cons ?_ (List.Pairwise.cons ?_ (List.pairwise_singleton _ _))
      · intro b hb
        rcases List.mem_cons.mp hb with h | h
        · subst h
          refine ⟨by norm_num, by norm_num⟩
        · have hb' : b = ("cc", rdOf "r3", (2 : ℚ)) := by simpa using h
          subst hb'
          refine ⟨by norm_num, by norm_num⟩
      · intro b hb
        have hb' : b = ("cc", rdOf "r3", (2 : ℚ)) := by simpa using hb
        subst hb'
        refine ⟨by norm_num, by norm_num⟩)
    (by decide) rfl (by decide)

/-- C1 (amended): when a chat request has a non-empty message, is not
served from the cache, and the translation/moderation stage fails, the
endpoint composes the generic couldn't-process response part (the
response text is that part, followed by the PDF-upload note when a
document is attached), disables downstream grading (no grading call,
no grading result) — and returns its response with
`finalApproved = true`: the flag keeps its initialisation and is *not*
set to false as the spec states. -/
theorem chat_stage_failure_behavior (co : Collaborators) (cfg : CacheConfig)
    (cache : CacheState) (now : ℚ) (req : ChatRequest)
    (hmsg : pyStrip req.message ≠ "")
    (hfail : (co.pwm req.message).success = false)
    (hmiss : req.pdf_file.getD "" = "" → (get cache req.message false now).1 = none) :
    (chatEndpoint co cfg cache now req).1.bot_response =
      (if req.pdf_file.getD "" = ""
       then "❌ **Sorry, I encountered an issue processing your message. Please try again.**"
       else "❌ **Sorry, I encountered an issue processing your message. Please try again.**\n\n📄 **I see you've uploaded a PDF file.** If you'd like me to grade it, just ask me to evaluate or assess your work!") ∧
    (chatEndpoint co cfg cache now req).2.2.calledGrade = false ∧
    (chatEndpoint co cfg cache now req).1.grading_result = none ∧
    (chatEndpoint co cfg cache now req).1.final_approved = true ∧
    (chatEndpoint co cfg cache now req).1.success = true := by
  have hmsgne : req.message ≠ "" := by
    intro h
    apply hmsg
    rw [h]
    rfl
  have hs1 : step1 co req =
      { final_approved := true, translation_info := none, moderation_info := none
        explanation_result := none, original_language_code := none
        should_grade_pdf := false
        parts := ["❌ **Sorry, I encountered an issue processing your message. Please try again.**"]
        calledPwm := true, calledIntent := false, calledExplain := false } := by
    simp [step1, hmsgne, hmsg, hfail]
  have hout : ¬((req.message = "" ∨ pyStrip req.message = "") ∧
      ¬(req.pdf_file.getD "" ≠ "")) := by
    intro h
    rcases h.1 with h1 | h1
    · exact hmsgne h1
    · exact hmsg h1
  by_cases hpdfp : req.pdf_file.getD "" = ""
  · have hget := hmiss hpdfp
    have hpdfstep : pdfStep co req
        { final_approved := true, translation_info := none, moderation_info := none
          explanation_result := none, original_language_code := none
          should_grade_pdf := false
          parts := ["❌ **Sorry, I encountered an issue processing your message. Please try again.**"]
          calledPwm := true, calledIntent := false, calledExplain := false } =
        { parts := ["❌ **Sorry, I encountered an issue processing your message. Please try again.**"]
          grading_result := none, calledGrade := false } := by
      simp [pdfStep, hpdfp]
    simp only [chatEndpoint, if_neg hout]
    rw [if_pos ⟨hmsg, by simp [hpdfp]⟩, hget]
    simp only [hs1, hpdfstep, hpdfp]
    simp
  · have hpdfstep : pdfStep co req
        { final_approved := true, translation_info := none, moderation_info := none
          explanation_result := none, original_language_code := none
          should_grade_pdf := false
          parts := ["❌ **Sorry, I encountered an issue processing your message. Please try again.**"]
          calledPwm := true, calledIntent := false, calledExplain := false } =
        { parts := ["❌ **Sorry, I encountered an issue processing your message. Please try again.**",
                    "📄 **I see you've uploaded a PDF file.** If you'd like me to grade it, just ask me to evaluate or assess your work!"]
          grading_result := none, calledGrade := false } := by
      simp [pdfStep, hpdfp, hmsgne, hmsg]
    simp only [chatEndpoint, if_neg hout]
    rw [if_neg (by simp [hpdfp])]
    simp only [hs1, hpdfstep, hpdfp]
    refine ⟨?_, by simp, by simp, by simp, by simp⟩
    rw [if_neg (by simp)]
    set_option maxRecDepth 4000 in decide

/-- C1 witness: concrete failing stage, no PDF, empty cache. -/
theorem chat_stage_failure_behavior_witness :
    (chatEndpoint failCollab defaultCacheConfig [] 0
        { message := "hello", pdf_file := none }).1.bot_response =
      (if ({ message := "hello", pdf_file := none } : ChatRequest).pdf_file.getD "" = ""
       then "❌ **Sorry, I encountered an issue processing your message. Please try again.**"
       else "❌ **Sorry, I encountered an issue processing your message. Please try again.**\n\n📄 **I see you've uploaded a PDF file.** If you'd like me to grade it, just ask me to evaluate or assess your work!") ∧
    (chatEndpoint failCollab defaultCacheConfig [] 0
        { message := "hello", pdf_file := none }).2.2.calledGrade = false ∧
    (chatEndpoint failCollab defaultCacheConfig [] 0
        { message := "hello", pdf_file := none }).1.grading_result = none ∧
    (chatEndpoint failCollab defaultCacheConfig [] 0
        { message := "hello", pdf_file := none }).1.final_approved = true ∧
    (chatEndpoint failCollab defaultCacheConfig [] 0
        { message := "hello", pdf_file := none }).1.success = true :=
  chat_stage_failure_behavior failCollab defaultCacheConfig [] 0
    { message := "hello", pdf_file := none } (by decide) rfl (fun _ => rfl)

/-- C1 counterexample: with a non-empty message whose
translation/moderation stage fails, the endpoint's response carries
`final_approved = true`, not `false` as the claim states (the failure
branch never updates the flag from its `True` initialisation). -/
theorem chat_stage_failure_cex :
    pyStrip "hello" ≠ "" ∧
    (failCollab.pwm "hello").success = false ∧
    (chatEndpoint failCollab defaultCacheConfig [] 0
      { message := "hello", pdf_file := none }).1.final_approved = true := by
  refine ⟨by decide, rfl, ?_⟩
  rfl

/-- C2: for every moderation run that completes without a collaborator
error (`error` unset when the classification and decision nodes run),
the `approved` flag is true iff the flagged-categories list is empty and
the severity score is strictly below `0.3`; with no flagged categories
and severity exactly `0.3` the content is not approved. -/
theorem moderation_decision_rule (mr : ModerationJson) (st : ModState)
    (herr : st.error = none) :
    ((makeDecisionNode (classifyContentNode mr st)).approved = true ↔
      (mr.inappropriate_categories.getD [] = [] ∧ mr.severity_score.getD 0 < 3/10)) ∧
    (mr.inappropriate_categories.getD [] = [] → mr.severity_score.getD 0 = 3/10 →
      (makeDecisionNode (classifyContentNode mr st)).approved = false) := by
  have h1 : (classifyContentNode mr st).error = none := by
    simp [classifyContentNode, herr]
  constructor
  · simp [classifyContentNode, makeDecisionNode, herr, List.isEmpty_iff]
  · intro hcat hsev
    simp [classifyContentNode, makeDecisionNode, herr, hcat, hsev, List.isEmpty_iff]

/-- C2 witness: a concrete error-free run at the decision boundary
(no flagged categories, severity exactly `0.3`) is not approved. -/
theorem moderation_decision_rule_witness :
    (makeDecisionNode (classifyContentNode
        { inappropriate_categories := some [], severity_score := some (3/10)
          confidence := some 1, explanation_text := some "borderline" }
        { error := none, flagged_categories := [], severity_score := 0
          confidence := 0, explanation_text := "", approved := false
          step := "content_analyzed" })).approved = false :=
  (moderation_decision_rule
    { inappropriate_categories := some [], severity_score := some (3/10)
      confidence := some 1, explanation_text := some "borderline" }
    { error := none, flagged_categories := [], severity_score := 0
      confidence := 0, explanation_text := "", approved := false
      step := "content_analyzed" } rfl).2 rfl rfl

/-- C6: for every error-free state whose detected language code is
`"en"`, the pipeline segment after detection marks `is_english`, sets
the translated text to the input text, and never invokes the
translation collaborator. -/
theorem english_fast_path (translateCall : AgentState → AgentState)
    (st : AgentState) (herr : st.error = none)
    (hen : st.detected_language_code = "en") :
    (runFromCheckEnglish translateCall st).1.is_english = true ∧
    (runFromCheckEnglish translateCall st).1.translated_text = st.input_text ∧
    (runFromCheckEnglish translateCall st).2 = false := by
  have hlow : pyLower st.detected_language_code = "en" := by
    rw [hen]; decide
  simp [runFromCheckEnglish, checkEnglishNode, routingDecision,
    finalizeOutputNode, herr, hlow]

/-- C6 witness: a concrete error-free state detected as `"en"` takes
the fast path without a translate call. -/
theorem english_fast_path_witness :
    (runFromCheckEnglish id
      { input_text := "hello there", detected_language := "English"
        detected_language_code := "en", confidence := 99/100
        translated_text := "", is_english := false, error := none
        step := "language_detected" }).1.is_english = true ∧
    (runFromCheckEnglish id
      { input_text := "hello there", detected_language := "English"
        detected_language_code := "en", confidence := 99/100
        translated_text := "", is_english := false, error := none
        step := "language_detected" }).1.translated_text = "hello there" ∧
    (runFromCheckEnglish id
      { input_text := "hello there", detected_language := "English"
        detected_language_code := "en", confidence := 99/100
        translated_text := "", is_english := false, error := none
        step := "language_detected" }).2 = false :=
  english_fast_path id
    { input_text := "hello there", detected_language := "English"
      detected_language_code := "en", confidence := 99/100
      translated_text := "", is_english := false, error := none
      step := "language_detected" } rfl rfl

/-- C9: back-translation cleaning rule.  For an English target the
composed text is returned unchanged (translation skipped, nothing
stripped); for a non-English, non-empty target the text sent to the
translation collaborator is the cleaned text (bold markers, emoji
ranges and decorative symbols stripped), unless the cleaned text is
shorter than 10 characters, in which case the original text is sent. -/
theorem back_translation_cleaning (translateTo : String → String → TransResult)
    (response_text target_code : String) :
    ((pyLower target_code = "en" ∨ pyLower target_code = "english") →
      translateResponseToUserLanguage translateTo response_text target_code =
        { success := true, translated_text := response_text, skipped := true, error := none }) ∧
    (¬(pyLower target_code = "en" ∨ pyLower target_code = "english") →
      pyStrip target_code ≠ "" →
      translateResponseToUserLanguage translateTo response_text target_code =
        translateTo
          (if (pyStrip (cleanFormattingForTranslation response_text)).length < 10
           then response_text
           else cleanFormattingForTranslation response_text)
          target_code) := by
  constructor
  · intro hen
    simp [translateResponseToUserLanguage, hen]
  · intro hen hne
    have hcode : target_code ≠ "" := by
      intro hc
      apply hne
      rw [hc]
      rfl
    have hlen : (pyStrip target_code).length ≠ 0 := by
      intro hl
      apply hne
      have hd : (pyStrip target_code).data = [] := List.length_eq_zero.mp hl
      cases hs : pyStrip target_code with
      | mk d => rw [hs] at hd; simp at hd; rw [hd]
    simp [translateResponseToUserLanguage, hen, hcode, hlen]

/-- C9 witness: the Spanish-target branch at a concrete input reduces
to a call of the translation collaborator on the selected text. -/
theorem back_translation_cleaning_witness :
    translateResponseToUserLanguage
      (fun t _ => { success := true, translated_text := t, skipped := false, error := none })
      "**Hello world, how are you?**" "es" =
    (fun t _ => ({ success := true, translated_text := t, skipped := false, error := none } : TransResult))
      (if (pyStrip (cleanFormattingForTranslation "**Hello world, how are you?**")).length < 10
       then "**Hello world, how are you?**"
       else cleanFormattingForTranslation "**Hello world, how are you?**")
      "es" :=
  (back_translation_cleaning
    (fun t _ => { success := true, translated_text := t, skipped := false, error := none })
    "**Hello world, how are you?**" "es").2 (by decide) (by decide)

/-- C8: a chat request whose message is empty or whitespace-only and
which carries no document is rejected with `success = false` and an
"Empty input" error, the cache is untouched, and no collaborator
(translation/moderation, intent, grading, explanation, back
translation) is invoked. -/
theorem empty_input_rejection (co : Collaborators) (cfg : CacheConfig)
    (cache : CacheState) (now : ℚ) (req : ChatRequest)
    (hmsg : pyStrip req.message = "") (hpdf : req.pdf_file.getD "" = "") :
    (chatEndpoint co cfg cache now req).1.success = false ∧
    (chatEndpoint co cfg cache now req).1.error = some "Empty input" ∧
    (chatEndpoint co cfg cache now req).2.1 = cache ∧
    (chatEndpoint co cfg cache now req).2.2 = noFlags := by
  have hcond : ((req.message = "" ∨ pyStrip req.message = "") ∧
      ¬(req.pdf_file.getD "" ≠ "")) := by
    refine ⟨Or.inr hmsg, ?_⟩
    simp [hpdf]
  simp only [chatEndpoint, if_pos hcond]
  simp

/-- C8 witness: a whitespace-only message with no PDF at a concrete
cache state. -/
theorem empty_input_rejection_witness :
    (chatEndpoint sampleCollab defaultCacheConfig [] 0
        { message := "   ", pdf_file := none }).1.success = false ∧
    (chatEndpoint sampleCollab defaultCacheConfig [] 0
        { message := "   ", pdf_file := none }).1.error = some "Empty input" ∧
    (chatEndpoint sampleCollab defaultCacheConfig [] 0
        { message := "   ", pdf_file := none }).2.1 = [] ∧
    (chatEndpoint sampleCollab defaultCacheConfig [] 0
        { message := "   ", pdf_file := none }).2.2 = noFlags :=
  empty_input_rejection sampleCollab defaultCacheConfig [] 0
    { message := "   ", pdf_file := none } (by decide) rfl

end EdRoom
